import Mathlib

/-!
Verification of the Witness451 generative-eyeball program
(`src/eyeball-generator-native.js`).

Modelling conventions of this shallow embedding:

* JavaScript numbers are modelled by exact rationals (`ℚ`); the RNG state is
  a natural number.  For the seeds the program accepts (non-negative integers
  below 2^32) the JavaScript double arithmetic of the LCG is exact, so the
  `ℕ`/`ℚ` model agrees with the source bit for bit.
* The transcendental functions `Math.sin`, `Math.cos` and the constant
  `Math.PI` have no exact rational realisation; every rendering definition is
  parametrised by a `TrigOps` record supplying them.  Structural theorems
  (layer order, push/pop balance, termination bounds) are proved for every
  realisation; concrete counterexamples instantiate `TrigOps` explicitly.
* A frame render is modelled as the list of drawing-surface commands the
  `CanvasHelper` facade would receive, in emission order, tagged with the
  layer routine that emitted them.
-/

/-! ### SeededRandom (src lines 5-39) -/

namespace SeededRandom

/-- One step of the linear congruential recurrence:
`seed = (seed * 1664525 + 1013904223) % 4294967296`. -/
def lcg (s : ℕ) : ℕ := (s * 1664525 + 1013904223) % 4294967296

/-- `next()`: advance the state and return `seed / 4294967296`. -/
def next (s : ℕ) : ℚ × ℕ :=
  let s2 := lcg s
  ((s2 : ℚ) / 4294967296, s2)

/-- `range(min, max)`: `min + next() * (max - min)`. -/
def range (lo hi : ℚ) (s : ℕ) : ℚ × ℕ :=
  let (v, s2) := next s
  (lo + v * (hi - lo), s2)

/-- `range(max)` with a single argument: the source substitutes
`min = 0`, `max = the argument` when `max === undefined`. -/
def rangeOne (hi : ℚ) (s : ℕ) : ℚ × ℕ := range 0 hi s

/-- `int(min, max)`: `Math.floor(range(min, max + 1))`. -/
def intIn (lo hi : ℚ) (s : ℕ) : ℤ × ℕ :=
  let (v, s2) := range lo (hi + 1) s
  (⌊v⌋, s2)

/-- `choice(array)`: `array[int(0, array.length - 1)]`; an out-of-range
index yields `undefined` in JavaScript, modelled by `Option`. -/
def choice {α : Type _} (l : List α) (s : ℕ) : Option α × ℕ :=
  let (i, s2) := intIn 0 ((l.length : ℚ) - 1) s
  (l.get? i.toNat, s2)

/-- `boolean(probability)`: `next() < probability`. -/
def boolean (p : ℚ) (s : ℕ) : Bool × ℕ :=
  let (v, s2) := next s
  (decide (v < p), s2)

end SeededRandom

/-! ### Colors (src lines 315-384) -/

/-- An `[r, g, b]` color triple. -/
structure Rgb where
  r : ℚ
  g : ℚ
  b : ℚ
deriving DecidableEq

namespace Eyeball

/-- `getColorName(rgb)` (src lines 315-338): first matching
channel-threshold predicate wins, final fallback "Mystic". -/
def getColorName (c : Rgb) : String :=
  if c.r > 200 ∧ c.g > 200 ∧ c.b > 200 then "Ivory"
  else if c.r < 50 ∧ c.g < 50 ∧ c.b < 50 then "Obsidian"
  else if c.r > 200 ∧ c.g < 100 ∧ c.b < 100 then "Crimson"
  else if c.r < 100 ∧ c.g > 200 ∧ c.b < 100 then "Emerald"
  else if c.r < 100 ∧ c.g < 100 ∧ c.b > 200 then "Sapphire"
  else if c.r > 200 ∧ c.g > 200 ∧ c.b < 100 then "Golden"
  else if c.r > 200 ∧ c.g < 100 ∧ c.b > 200 then "Amethyst"
  else if c.r < 100 ∧ c.g > 200 ∧ c.b > 200 then "Turquoise"
  else if c.r > 150 ∧ c.g > 100 ∧ c.b < 100 then "Copper"
  else if c.r > 100 ∧ c.g > 150 ∧ c.b < 100 then "Jade"
  else if c.r < 100 ∧ c.g > 100 ∧ c.b > 150 then "Azure"
  else if c.r > 150 ∧ c.g < 100 ∧ c.b > 100 then "Rose"
  else if c.r > 100 ∧ c.g < 100 ∧ c.b > 150 then "Violet"
  else if c.r > 100 ∧ c.g > 100 ∧ c.b > 100 then "Silver"
  else if c.r > 150 then "Ruby"
  else if c.g > 150 then "Verdant"
  else if c.b > 150 then "Cobalt"
  else "Mystic"

/-- The fixed `colorPalettes` table of `generateColor` (src lines 341-372);
an unknown key falls back to the iris palette (`|| colorPalettes.iris`). -/
def colorPalettes (ty : String) : List Rgb :=
  match ty with
  | "socket" =>
      [⟨20, 20, 30⟩, ⟨40, 0, 60⟩, ⟨60, 20, 0⟩, ⟨0, 30, 50⟩,
       ⟨80, 80, 80⟩, ⟨30, 30, 30⟩, ⟨10, 50, 30⟩]
  | "sclera" =>
      [⟨255, 255, 255⟩, ⟨240, 240, 255⟩, ⟨255, 240, 240⟩, ⟨200, 255, 200⟩,
       ⟨50, 50, 60⟩, ⟨100, 100, 120⟩, ⟨80, 80, 100⟩, ⟨255, 200, 150⟩]
  | "pupil" =>
      [⟨0, 0, 0⟩, ⟨20, 0, 40⟩, ⟨40, 0, 0⟩, ⟨0, 20, 40⟩,
       ⟨255, 255, 255⟩, ⟨255, 0, 0⟩, ⟨0, 255, 255⟩, ⟨255, 255, 0⟩]
  | "effect" =>
      [⟨255, 0, 255⟩, ⟨0, 255, 255⟩, ⟨255, 255, 0⟩, ⟨255, 100, 0⟩,
       ⟨100, 255, 100⟩, ⟨255, 50, 150⟩, ⟨150, 100, 255⟩, ⟨255, 200, 0⟩]
  | "laser" =>
      [⟨255, 0, 0⟩, ⟨0, 255, 0⟩, ⟨0, 100, 255⟩, ⟨255, 0, 255⟩,
       ⟨255, 255, 0⟩, ⟨255, 100, 0⟩, ⟨100, 255, 255⟩]
  | "aura" =>
      [⟨100, 0, 255⟩, ⟨255, 0, 100⟩, ⟨0, 255, 100⟩, ⟨255, 200, 0⟩,
       ⟨0, 200, 255⟩, ⟨255, 0, 200⟩, ⟨200, 255, 0⟩]
  | _ =>
      [⟨0, 150, 255⟩, ⟨255, 0, 150⟩, ⟨150, 255, 0⟩, ⟨255, 150, 0⟩,
       ⟨200, 0, 200⟩, ⟨0, 255, 200⟩, ⟨255, 255, 0⟩, ⟨150, 0, 255⟩,
       ⟨255, 100, 100⟩, ⟨100, 255, 100⟩, ⟨100, 100, 255⟩, ⟨255, 0, 0⟩,
       ⟨0, 255, 0⟩, ⟨0, 0, 255⟩, ⟨255, 255, 255⟩, ⟨50, 255, 150⟩]

/-- `constrain` helper of `generateColor`: `Math.min(max, Math.max(min, val))`. -/
def constrain (val lo hi : ℚ) : ℚ := min hi (max lo val)

/-- `generateColor(type)` (src lines 340-384): a uniform palette choice
followed by an independent jitter in `[-30, 30)` per channel, each channel
clamped to `[0, 255]`.  The palettes are never empty, so the `Option`
returned by `choice` is always `some`; the `getD` default is unreachable. -/
def generateColor (ty : String) (s : ℕ) : Rgb × ℕ :=
  let palette := colorPalettes ty
  let (baseColor?, s1) := SeededRandom.choice palette s
  let baseColor := baseColor?.getD ⟨0, 0, 0⟩
  let (j1, s2) := SeededRandom.range (-30) 30 s1
  let (j2, s3) := SeededRandom.range (-30) 30 s2
  let (j3, s4) := SeededRandom.range (-30) 30 s3
  (⟨constrain (baseColor.r + j1) 0 255,
    constrain (baseColor.g + j2) 0 255,
    constrain (baseColor.b + j3) 0 255⟩, s4)

end Eyeball

/-! ### EyeballSpec: the attribute record built by `generateProperties`
(src lines 163-206).  The JavaScript object stores these as flat fields of
the `Eyeball` instance; they are grouped here into the immutable attribute
record the spec calls `EyeballSpec`. -/

structure EyeballSpec where
  socketShape : String
  socketSize : ℚ
  socketColor : Rgb
  scleraColor : Rgb
  scleraTexture : String
  irisSize : ℚ
  irisShape : String
  irisColor1 : Rgb
  irisColor2 : Rgb
  irisPattern : String
  pupilSize : ℚ
  pupilShape : String
  pupilColor : Rgb
  hasGlow : Bool
  hasLaser : Bool
  hasAura : Bool
  hasParticles : Bool
  hasLightning : Bool
  animationEnergy : ℚ
  effectColor : Rgb
  laserColor : Rgb
  auraColor : Rgb
  style : String
  intensity : ℚ
deriving DecidableEq

namespace Eyeball

/-- `generateProperties` (src lines 163-206) minus its trailing
`generateMetadata()` call, which is modelled separately and sequenced in
`mk` exactly as in the source.  Draw order is the source's statement order. -/
def generateProperties (s : ℕ) : EyeballSpec × ℕ :=
  let (socketShape?, s1) := SeededRandom.choice
    ["circle", "oval", "diamond", "almond", "star", "hexagon"] s
  let (socketSize, s2) := SeededRandom.range 80 140 s1
  let (socketColor, s3) := generateColor "socket" s2
  let (scleraColor, s4) := generateColor "sclera" s3
  let (scleraTexture?, s5) := SeededRandom.choice
    ["smooth", "veined", "cloudy", "metallic", "crystalline"] s4
  let (irisSize, s6) := SeededRandom.range 40 80 s5
  let (irisShape?, s7) := SeededRandom.choice
    ["circle", "oval", "star", "diamond", "octagon", "spiral"] s6
  let (irisColor1, s8) := generateColor "iris" s7
  let (irisColor2, s9) := generateColor "iris" s8
  let (irisPattern?, s10) := SeededRandom.choice
    ["solid", "radial", "spiral", "geometric", "fractal", "crystalline", "void"] s9
  let (pupilSize, s11) := SeededRandom.range 15 35 s10
  let (pupilShape?, s12) := SeededRandom.choice
    ["circle", "slit", "star", "cross", "diamond", "multiple", "void"] s11
  let (pupilColor, s13) := generateColor "pupil" s12
  let (hasGlow, s14) := SeededRandom.boolean 0.6 s13
  let (hasLaser, s15) := SeededRandom.boolean 0.3 s14
  let (hasAura, s16) := SeededRandom.boolean 0.4 s15
  let (hasParticles, s17) := SeededRandom.boolean 0.5 s16
  let (hasLightning, s18) := SeededRandom.boolean 0.2 s17
  let (animationEnergy, s19) := SeededRandom.range 0.1 1.0 s18
  let (effectColor, s20) := generateColor "effect" s19
  let (laserColor, s21) := generateColor "laser" s20
  let (auraColor, s22) := generateColor "aura" s21
  let (style?, s23) := SeededRandom.choice
    ["organic", "mechanical", "cosmic", "demonic", "angelic", "digital", "crystal"] s22
  let (intensity, s24) := SeededRandom.range 0.5 1.5 s23
  ({ socketShape := socketShape?.getD "circle"
     socketSize := socketSize
     socketColor := socketColor
     scleraColor := scleraColor
     scleraTexture := scleraTexture?.getD "smooth"
     irisSize := irisSize
     irisShape := irisShape?.getD "circle"
     irisColor1 := irisColor1
     irisColor2 := irisColor2
     irisPattern := irisPattern?.getD "solid"
     pupilSize := pupilSize
     pupilShape := pupilShape?.getD "circle"
     pupilColor := pupilColor
     hasGlow := hasGlow
     hasLaser := hasLaser
     hasAura := hasAura
     hasParticles := hasParticles
     hasLightning := hasLightning
     animationEnergy := animationEnergy
     effectColor := effectColor
     laserColor := laserColor
     auraColor := auraColor
     style := style?.getD "organic"
     intensity := intensity }, s24)

end Eyeball

/-! ### Trait metadata (src lines 208-313) -/

/-- One `{name, value}` entry of `this.metadata.traits`. -/
structure Trait where
  name : String
  value : String
deriving DecidableEq

/-- `this.metadata`: an ordered list of traits. -/
structure Metadata where
  traits : List Trait
deriving DecidableEq

namespace Eyeball

/-- `Math.round` on exact rationals: JavaScript rounds half toward
positive infinity, i.e. `⌊x + 1/2⌋`. -/
def jsRound (x : ℚ) : ℤ := ⌊x + 1 / 2⌋

/-- `Number.prototype.toFixed(1)` on the non-negative exact rationals this
program formats: round to one decimal digit (half away from zero never
arises at a representable tie here; the binary-double tie cases of the real
`toFixed` are below the granularity of any claim) and print `i.d`. -/
def jsToFixed1 (x : ℚ) : String :=
  let n : ℤ := ⌊x * 10 + 1 / 2⌋
  toString (n / 10) ++ "." ++ toString (n % 10)

/-- Default JavaScript number-to-string conversion for the exact decimal
rarity figures interpolated into trait templates (all are integers or
multiples of 1/10 in this program): integers print without a decimal
point, other values print with whatever decimals remain (up to the
granularity these rarities have). -/
def jsNumStr (x : ℚ) : String :=
  if x.den = 1 then toString x.num
  else
    let sign := if x < 0 then "-" else ""
    let y := |x|
    let ip : ℤ := ⌊y⌋
    let frac10 : ℤ := ⌊(y - ip) * 10 + 1 / 2⌋
    sign ++ toString ip ++ "." ++ toString frac10

/-- The `portalTypes` lookup (src lines 214-221); a key outside the table
would render as the string "undefined" in the template literal. -/
def portalTypes (k : String) : String :=
  match k with
  | "circle" => "Eternal Circle"
  | "oval" => "Mystic Oval"
  | "diamond" => "Crystal Diamond"
  | "almond" => "Ancient Almond"
  | "star" => "Stellar Gateway"
  | "hexagon" => "Sacred Hexagon"
  | _ => "undefined"

/-- The `scleraNames` lookup (src lines 229-235). -/
def scleraNames (k : String) : String :=
  match k with
  | "smooth" => "Pure Essence"
  | "veined" => "Bloodbound Veins"
  | "cloudy" => "Ethereal Mist"
  | "metallic" => "Liquid Metal"
  | "crystalline" => "Crystal Matrix"
  | _ => "undefined"

/-- The `irisPatterns` lookup (src lines 243-251). -/
def irisPatterns (k : String) : String :=
  match k with
  | "solid" => "Void Core"
  | "radial" => "Stellar Burst"
  | "spiral" => "Cosmic Spiral"
  | "geometric" => "Sacred Geometry"
  | "fractal" => "Infinite Fractal"
  | "crystalline" => "Crystal Lattice"
  | "void" => "Abyssal Void"
  | _ => "undefined"

/-- The `pupilTypes` lookup (src lines 260-268). -/
def pupilTypes (k : String) : String :=
  match k with
  | "circle" => "Eternal Portal"
  | "slit" => "Dragon Slit"
  | "star" => "Celestial Star"
  | "cross" => "Divine Cross"
  | "diamond" => "Soul Diamond"
  | "multiple" => "Trinity Gates"
  | "void" => "Chaos Void"
  | _ => "undefined"

/-- The `essenceTypes` lookup (src lines 299-307). -/
def essenceTypes (k : String) : String :=
  match k with
  | "organic" => "Living Essence"
  | "mechanical" => "Cyber Matrix"
  | "cosmic" => "Stellar Origin"
  | "demonic" => "Infernal Soul"
  | "angelic" => "Divine Light"
  | "digital" => "Data Stream"
  | "crystal" => "Crystal Core"
  | _ => "undefined"

/-- The `powers` array built at src lines 277-282: the labels of exactly
the active boolean effect flags, in the source's fixed order. -/
def activePowers (spec : EyeballSpec) : List String :=
  (if spec.hasGlow then ["Ethereal Glow"] else []) ++
  (if spec.hasLaser then ["Laser Beam"] else []) ++
  (if spec.hasAura then ["Energy Aura"] else []) ++
  (if spec.hasParticles then ["Particle Storm"] else []) ++
  (if spec.hasLightning then ["Lightning Strike"] else [])

/-- `generateMetadata` (src lines 208-313).  Consumes the shared random
stream once for the sclera rarity figure and - if any effect flag is
active - once more for the power-level bonus, in that order. -/
def generateMetadata (spec : EyeballSpec) (s : ℕ) : Metadata × ℕ :=
  let portalRarity : ℚ := (jsRound ((spec.socketSize - 80) / (140 - 80) * 10) : ℚ) / 10
  let portalTrait : Trait :=
    ⟨"Portal Frame", portalTypes spec.socketShape ++ " (" ++ jsNumStr portalRarity ++ ")"⟩
  let scleraColorName := getColorName spec.scleraColor
  let (scleraRarity, s1) := SeededRandom.range 1 10 s
  let scleraTrait : Trait :=
    ⟨"Sclera Essence",
     scleraColorName ++ " " ++ scleraNames spec.scleraTexture ++
       " (" ++ jsToFixed1 scleraRarity ++ ")"⟩
  let irisRarity : ℚ := (jsRound ((spec.irisSize - 40) / (80 - 40) * 10) : ℚ) / 10
  let irisColorName := getColorName spec.irisColor1
  let irisTrait : Trait :=
    ⟨"Iris Constellation",
     irisColorName ++ " " ++ irisPatterns spec.irisPattern ++
       " (" ++ jsNumStr irisRarity ++ ")"⟩
  let pupilRarity : ℚ := (jsRound ((spec.pupilSize - 15) / (35 - 15) * 10) : ℚ) / 10
  let pupilColorName := getColorName spec.pupilColor
  let pupilTrait : Trait :=
    ⟨"Pupil Gate",
     pupilColorName ++ " " ++ pupilTypes spec.pupilShape ++
       " (" ++ jsNumStr pupilRarity ++ ")"⟩
  let powers := activePowers spec
  let (powersTrait, s2) :=
    if 0 < powers.length then
      let (bonus, s2) := SeededRandom.range 0 2 s1
      let powerLevel : ℚ := (powers.length : ℚ) * 2.0 + bonus
      ((⟨"Arcane Powers",
         String.intercalate " + " powers ++ " (" ++ jsToFixed1 powerLevel ++ ")"⟩ : Trait), s2)
    else
      ((⟨"Arcane Powers", "Pure Essence (1.0)"⟩ : Trait), s1)
  let intensityValue := jsToFixed1 (spec.intensity * 10)
  let essenceTrait : Trait :=
    ⟨"Essence Type", essenceTypes spec.style ++ " (" ++ intensityValue ++ ")"⟩
  (⟨[portalTrait, scleraTrait, irisTrait, pupilTrait, powersTrait, essenceTrait]⟩, s2)

end Eyeball

/-! ### The Eyeball instance (constructor, src lines 144-161) -/

/-- The per-instance state of one `Eyeball`: canvas geometry, the seed, the
live random-stream state (`this.rng.seed`), the immutable attribute record,
the derived metadata, and the mutable animation state. -/
structure Eyeball where
  w : ℚ
  h : ℚ
  centerX : ℚ
  centerY : ℚ
  seed : ℕ
  rng : ℕ
  spec : EyeballSpec
  metadata : Metadata
  time : ℚ
  animationSpeed : ℚ
deriving DecidableEq

namespace Eyeball

/-- The `Eyeball` constructor (src lines 145-161): fresh stream from the
seed, `generateProperties` (which ends by calling `generateMetadata`),
then `time = 0` and `animationSpeed = rng.range(0.01, 0.05)`.
(Named `new` because `Eyeball.mk` is the record constructor.) -/
def new (seed : ℕ) (canvasWidth canvasHeight : ℚ) : Eyeball :=
  let spec := (generateProperties seed).1
  let s1 := (generateProperties seed).2
  let metadata := (generateMetadata spec s1).1
  let s2 := (generateMetadata spec s1).2
  let animationSpeed := (SeededRandom.range 0.01 0.05 s2).1
  let s3 := (SeededRandom.range 0.01 0.05 s2).2
  { w := canvasWidth
    h := canvasHeight
    centerX := canvasWidth / 2
    centerY := canvasHeight / 2
    seed := seed
    rng := s3
    spec := spec
    metadata := metadata
    time := 0
    animationSpeed := animationSpeed }

end Eyeball

/-! ### Rendering: drawing-surface commands (src lines 41-142, 386-1190)

Every per-frame routine is parametrised by a `TrigOps` record standing in
for `Math.PI`, `Math.sin`, `Math.cos` (see the header note).  Each routine
takes as explicit arguments exactly the `this.`-fields it reads. -/

/-- The numeric realisation of `Math.PI`, `Math.sin`, `Math.cos`. -/
structure TrigOps where
  pi : ℚ
  sin : ℚ → ℚ
  cos : ℚ → ℚ

/-- `TWO_PI = Math.PI * 2` of the `CanvasHelper`. -/
def TrigOps.twoPi (t : TrigOps) : ℚ := t.pi * 2

/-- `CanvasHelper.map(value, start1, stop1, start2, stop2)` (src line 52). -/
def mapQ (value start1 stop1 start2 stop2 : ℚ) : ℚ :=
  start2 + (stop2 - start2) * ((value - start1) / (stop1 - start1))

/-- `CanvasHelper.lerp(start, stop, amt)` (src line 55). -/
def lerpQ (start stop amt : ℚ) : ℚ := start + (stop - start) * amt

/-- Truncation toward zero, as JavaScript division underlying `%`. -/
def ratTrunc (x : ℚ) : ℤ := x.num / (x.den : ℤ)

/-- The JavaScript `%` operator on numbers: `a - b * trunc(a / b)`. -/
def jsMod (a b : ℚ) : ℚ := a - b * (ratTrunc (a / b) : ℚ)

/-- Value sequence of a JavaScript loop `for (a = 0; a < hi; a += step)`
under exact rational arithmetic (`step > 0`): `0, step, 2*step, …` while
below `hi`, i.e. `⌈hi/step⌉` iterations. -/
def floatFor (hi step : ℚ) : List ℚ :=
  (List.range (Int.toNat ⌈hi / step⌉)).map (fun k => (k : ℚ) * step)

/-- Value sequence of a countdown loop `for (i = n; i > 0; i--)`. -/
def countdown (n : ℕ) : List ℕ := (List.range n).map (fun k => n - k)

/-- One drawing-surface command, at the granularity of the `CanvasHelper`
facade (src lines 42-142).  `rectMode` is a no-op in the source and emits
nothing; `endShape` records its `close` flag. -/
inductive DrawCmd where
  | background (r g b : ℚ)
  | fill (r g b a : ℚ)
  | stroke (r g b a : ℚ)
  | strokeWeight (weight : ℚ)
  | noStroke
  | noFill
  | push
  | pop
  | translate (x y : ℚ)
  | rotate (angle : ℚ)
  | ellipse (x y w h : ℚ)
  | line (x1 y1 x2 y2 : ℚ)
  | rect (x y w h : ℚ)
  | beginShape
  | endShape (close : Bool)
  | vertex (x y : ℚ)
  | triangle (x1 y1 x2 y2 x3 y3 : ℚ)
deriving DecidableEq

/-- The layer routine a command was emitted by (the eleven passes of
`Eyeball.draw`, src lines 386-432). -/
inductive Layer where
  | background
  | glow
  | aura
  | socket
  | sclera
  | iris
  | pupil
  | highlights
  | laser
  | particles
  | lightning
deriving DecidableEq

/-- Tag every command of a layer routine with its layer. -/
def tagLayer (L : Layer) (cs : List DrawCmd) : List (Layer × DrawCmd) :=
  cs.map (fun c => (L, c))

/-- A stateful `for (i = 0; i < n; i++)` loop threading the RNG state and
concatenating the commands of each iteration (used by the vein and
lightning layers, which draw from `this.rng` while rendering). -/
def statedForAux (f : ℕ → ℕ → List DrawCmd × ℕ) : ℕ → ℕ → ℕ → List DrawCmd × ℕ
  | _, 0, s => ([], s)
  | i, n + 1, s =>
    ((f i s).1 ++ (statedForAux f (i + 1) n (f i s).2).1,
     (statedForAux f (i + 1) n (f i s).2).2)

/-- See `statedForAux`; iterations run `i = 0 … n-1`. -/
def statedFor (n : ℕ) (f : ℕ → ℕ → List DrawCmd × ℕ) (s : ℕ) : List DrawCmd × ℕ :=
  statedForAux f 0 n s

namespace Eyeball

/-- `drawStar(p, x, y, radius1, radius2, npoints)` (src lines 645-659). -/
def drawStar (t : TrigOps) (x y radius1 radius2 npoints : ℚ) : List DrawCmd :=
  let angle := t.twoPi / npoints
  let halfAngle := angle / 2
  DrawCmd.beginShape ::
    (floatFor t.twoPi angle).flatMap (fun a =>
      [DrawCmd.vertex (x + t.cos a * radius2) (y + t.sin a * radius2),
       DrawCmd.vertex (x + t.cos (a + halfAngle) * radius1) (y + t.sin (a + halfAngle) * radius1)])
    ++ [DrawCmd.endShape true]

/-- `drawPolygon(p, x, y, radius, npoints)` (src lines 661-671). -/
def drawPolygon (t : TrigOps) (x y radius npoints : ℚ) : List DrawCmd :=
  let angle := t.twoPi / npoints
  DrawCmd.beginShape ::
    (floatFor t.twoPi angle).map (fun a =>
      DrawCmd.vertex (x + t.cos a * radius) (y + t.sin a * radius))
    ++ [DrawCmd.endShape true]

/-- `drawShape(p, shape, size)` (src lines 616-643): the shared shape
dispatcher keyed by the categorical shape string. -/
def drawShape (t : TrigOps) (shape : String) (size : ℚ) : List DrawCmd :=
  match shape with
  | "circle" => [DrawCmd.ellipse 0 0 size size]
  | "oval" => [DrawCmd.ellipse 0 0 (size * 1.3) (size * 0.8)]
  | "diamond" =>
      [DrawCmd.push, DrawCmd.rotate (t.pi / 4),
       DrawCmd.rect 0 0 (size * 0.7) (size * 0.7), DrawCmd.pop]
  | "star" => drawStar t 0 0 (size / 2) (size / 4) 6
  | "hexagon" => drawPolygon t 0 0 (size / 2) 6
  | "almond" => [DrawCmd.ellipse 0 0 (size * 1.5) (size * 0.6)]
  | _ => [DrawCmd.ellipse 0 0 size size]

/-- `drawRadialPattern` (src lines 673-688). -/
def drawRadialPattern (t : TrigOps) (irisColor1 irisColor2 : Rgb) (irisSize : ℚ) : List DrawCmd :=
  (List.range 12).flatMap (fun i =>
    let angle := (t.twoPi / 12) * (i : ℚ)
    let colorLerp := (i : ℚ) / 12
    let r := lerpQ irisColor1.r irisColor2.r colorLerp
    let g := lerpQ irisColor1.g irisColor2.g colorLerp
    let b := lerpQ irisColor1.b irisColor2.b colorLerp
    [DrawCmd.fill r g b 255, DrawCmd.push, DrawCmd.rotate angle,
     DrawCmd.triangle 0 0 (irisSize / 2) (-5) (irisSize / 2) 5, DrawCmd.pop])

/-- `drawSpiralPattern` (src lines 690-713). -/
def drawSpiralPattern (t : TrigOps) (time animationEnergy : ℚ)
    (irisColor1 irisColor2 : Rgb) (irisSize : ℚ) : List DrawCmd :=
  [DrawCmd.noFill, DrawCmd.strokeWeight 3] ++
  (List.range 5).flatMap (fun i =>
    let colorLerp := (i : ℚ) / 5
    let r := lerpQ irisColor1.r irisColor2.r colorLerp
    let g := lerpQ irisColor1.g irisColor2.g colorLerp
    let b := lerpQ irisColor1.b irisColor2.b colorLerp
    DrawCmd.stroke r g b 255 :: DrawCmd.beginShape :: DrawCmd.noFill ::
      (floatFor (t.twoPi * 3) 0.1).map (fun angle =>
        let radius := mapQ angle 0 (t.twoPi * 3) 0 (irisSize / 2)
        DrawCmd.vertex (t.cos (angle + time * animationEnergy + (i : ℚ)) * radius)
          (t.sin (angle + time * animationEnergy + (i : ℚ)) * radius))
      ++ [DrawCmd.endShape false])
  ++ [DrawCmd.noStroke]

/-- `drawGeometricPattern` (src lines 715-740). -/
def drawGeometricPattern (t : TrigOps) (time animationEnergy : ℚ)
    (irisColor1 irisColor2 : Rgb) (irisSize : ℚ) : List DrawCmd :=
  (List.range 4).flatMap (fun ring =>
    let radius := mapQ (ring : ℚ) 0 3 (irisSize / 8) (irisSize / 2)
    let numShapes := 6 + ring * 2
    (List.range numShapes).flatMap (fun i =>
      let angle := (t.twoPi / (numShapes : ℚ)) * (i : ℚ) +
        time * animationEnergy * ((ring : ℚ) + 1)
      let x := t.cos angle * radius
      let y := t.sin angle * radius
      let colorLerp := (ring : ℚ) / 4
      let r := lerpQ irisColor1.r irisColor2.r colorLerp
      let g := lerpQ irisColor1.g irisColor2.g colorLerp
      let b := lerpQ irisColor1.b irisColor2.b colorLerp
      [DrawCmd.fill r g b 255, DrawCmd.push, DrawCmd.translate x y,
       DrawCmd.rotate angle, DrawCmd.rect 0 0 5 5, DrawCmd.pop]))

/-- `drawFractalLayer(p, size, x, y, depth)` (src lines 746-764): returns
immediately when `depth <= 0 || size < 5`, otherwise draws one disc and
recurses four ways with `size * 0.6` and `depth - 1`. -/
def drawFractalLayer (t : TrigOps) (irisColor1 irisColor2 : Rgb)
    (size x y : ℚ) (depth : ℤ) : List DrawCmd :=
  if depth ≤ 0 ∨ size < 5 then []
  else
    let colorLerp := mapQ (depth : ℚ) 0 4 1 0
    let r := lerpQ irisColor1.r irisColor2.r colorLerp
    let g := lerpQ irisColor1.g irisColor2.g colorLerp
    let b := lerpQ irisColor1.b irisColor2.b colorLerp
    let newSize := size * 0.6
    let offset := size * 0.3
    [DrawCmd.fill r g b 150, DrawCmd.ellipse x y size size]
    ++ drawFractalLayer t irisColor1 irisColor2 newSize (x - offset) y (depth - 1)
    ++ drawFractalLayer t irisColor1 irisColor2 newSize (x + offset) y (depth - 1)
    ++ drawFractalLayer t irisColor1 irisColor2 newSize x (y - offset) (depth - 1)
    ++ drawFractalLayer t irisColor1 irisColor2 newSize x (y + offset) (depth - 1)
termination_by depth.toNat
decreasing_by all_goals omega

/-- `drawFractalPattern` (src lines 742-744): entry at depth 4. -/
def drawFractalPattern (t : TrigOps) (irisColor1 irisColor2 : Rgb)
    (irisSize : ℚ) : List DrawCmd :=
  drawFractalLayer t irisColor1 irisColor2 (irisSize / 2) 0 0 4

/-- `drawCrystallinePattern` (src lines 766-784). -/
def drawCrystallinePattern (t : TrigOps) (irisColor1 irisColor2 : Rgb)
    (irisSize : ℚ) : List DrawCmd :=
  (List.range 8).flatMap (fun i =>
    let angle := (t.twoPi / 8) * (i : ℚ)
    let radius := irisSize / 3
    let x := t.cos angle * radius
    let y := t.sin angle * radius
    [DrawCmd.fill irisColor1.r irisColor1.g irisColor1.b 180,
     DrawCmd.push, DrawCmd.translate x y, DrawCmd.rotate angle,
     DrawCmd.triangle 0 (-10) (-8) 10 8 10, DrawCmd.pop])
  ++ [DrawCmd.fill irisColor2.r irisColor2.g irisColor2.b 220,
      DrawCmd.ellipse 0 0 (irisSize / 3) (irisSize / 3)]

/-- `drawVoidPattern` (src lines 786-800): 20 alternating concentric discs. -/
def drawVoidPattern (t : TrigOps) (irisColor1 : Rgb) (irisSize : ℚ) : List DrawCmd :=
  (countdown 20).flatMap (fun i =>
    let alpha := mapQ (i : ℚ) 0 20 0 255
    let size := mapQ (i : ℚ) 0 20 0 irisSize
    (if i % 2 = 0 then
       DrawCmd.fill irisColor1.r irisColor1.g irisColor1.b alpha
     else
       DrawCmd.fill 0 0 0 alpha) :: [DrawCmd.ellipse 0 0 size size])

end Eyeball

namespace Eyeball

/-- `drawVeins` (src lines 802-815): eight random stroked segments, each
consuming three stream draws (angle, length, endpoint jitter) — rendering
re-samples `this.rng`. -/
def drawVeins (t : TrigOps) (s : ℕ) : List DrawCmd × ℕ :=
  let body := statedFor 8 (fun _ si =>
    let (angle, s1) := SeededRandom.range 0 t.twoPi si
    let (len, s2) := SeededRandom.range 20 40 s1
    let (jit, s3) := SeededRandom.range (-5) 5 s2
    ([DrawCmd.push, DrawCmd.rotate angle, DrawCmd.line 0 0 len jit, DrawCmd.pop], s3)) s
  ([DrawCmd.stroke 200 100 100 100, DrawCmd.strokeWeight 1] ++ body.1 ++ [DrawCmd.noStroke],
   body.2)

/-- `drawSclera` (src lines 450-474). -/
def drawSclera (t : TrigOps) (centerX centerY : ℚ) (scleraTexture socketShape : String)
    (scleraColor : Rgb) (socketSize : ℚ) (s : ℕ) : List DrawCmd × ℕ :=
  let veins := if scleraTexture = "veined" then drawVeins t s else ([], s)
  let scleraSize := socketSize * 0.85
  let body :=
    if scleraTexture = "metallic" then
      (floatFor scleraSize 2).flatMap (fun i =>
        let alpha := mapQ i 0 scleraSize 255 100
        DrawCmd.fill scleraColor.r scleraColor.g scleraColor.b alpha ::
          drawShape t socketShape (scleraSize - i))
    else
      drawShape t socketShape scleraSize
  ([DrawCmd.push, DrawCmd.translate centerX centerY] ++ veins.1 ++
     [DrawCmd.fill scleraColor.r scleraColor.g scleraColor.b 255] ++ body ++ [DrawCmd.pop],
   veins.2)

/-- The laser-synchronised glow factor computed identically in `drawIris`
(src lines 486-496) and `drawPupil` (src lines 551-561). -/
def laserGlowOf (t : TrigOps) (time animationEnergy : ℚ) (hasLaser : Bool) : ℚ :=
  if hasLaser then
    let materializationCycle := time * animationEnergy * 0.4
    let materializationPhase := (t.sin materializationCycle + 1) / 2
    if materializationPhase > 0.2 then
      t.sin (mapQ materializationPhase 0.2 1 0 1 * t.pi)
    else 0
  else 0

/-- `drawIris` (src lines 476-539). -/
def drawIris (t : TrigOps) (centerX centerY time animationEnergy : ℚ) (hasLaser : Bool)
    (irisPattern irisShape : String) (irisColor1 irisColor2 laserColor : Rgb)
    (irisSize : ℚ) : List DrawCmd :=
  let offsetX := t.sin time * 5 * animationEnergy
  let offsetY := t.cos (time * 0.7) * 3 * animationEnergy
  let laserGlow := laserGlowOf t time animationEnergy hasLaser
  let patternCmds :=
    if irisPattern = "radial" then drawRadialPattern t irisColor1 irisColor2 irisSize
    else if irisPattern = "spiral" then
      drawSpiralPattern t time animationEnergy irisColor1 irisColor2 irisSize
    else if irisPattern = "geometric" then
      drawGeometricPattern t time animationEnergy irisColor1 irisColor2 irisSize
    else if irisPattern = "fractal" then drawFractalPattern t irisColor1 irisColor2 irisSize
    else if irisPattern = "crystalline" then
      drawCrystallinePattern t irisColor1 irisColor2 irisSize
    else if irisPattern = "void" then drawVoidPattern t irisColor1 irisSize
    else
      DrawCmd.fill irisColor1.r irisColor1.g irisColor1.b 255 ::
        drawShape t irisShape irisSize
  let glowCmds :=
    if laserGlow > 0.1 then
      (countdown 6).flatMap (fun i =>
        let glowAlpha := laserGlow * 30 * ((i : ℚ) / 6)
        let glowSize := irisSize + (i : ℚ) * 6
        DrawCmd.fill laserColor.r laserColor.g laserColor.b glowAlpha ::
          drawShape t irisShape glowSize)
      ++ (DrawCmd.fill 255 255 255 (laserGlow * 40) :: drawShape t irisShape (irisSize + 2))
      ++ (DrawCmd.fill laserColor.r laserColor.g laserColor.b (laserGlow * 25) ::
            drawShape t irisShape irisSize)
    else []
  [DrawCmd.push, DrawCmd.translate centerX centerY, DrawCmd.translate offsetX offsetY]
    ++ patternCmds ++ glowCmds ++ [DrawCmd.pop]

/-- `drawPupil` (src lines 541-614). -/
def drawPupil (t : TrigOps) (centerX centerY time animationEnergy : ℚ) (hasLaser : Bool)
    (pupilShape : String) (pupilColor laserColor : Rgb) (pupilSize : ℚ) : List DrawCmd :=
  let offsetX := t.sin time * 5 * animationEnergy
  let offsetY := t.cos (time * 0.7) * 3 * animationEnergy
  let laserGlow := laserGlowOf t time animationEnergy hasLaser
  let body :=
    if pupilShape = "multiple" then
      (List.range 3).flatMap (fun i =>
        let angle := (t.twoPi / 3) * (i : ℚ)
        let x := t.cos angle * (pupilSize * 0.3)
        let y := t.sin angle * (pupilSize * 0.3)
        [DrawCmd.push, DrawCmd.translate x y,
         DrawCmd.fill pupilColor.r pupilColor.g pupilColor.b 255,
         DrawCmd.ellipse 0 0 (pupilSize * 0.5) (pupilSize * 0.5), DrawCmd.pop])
    else if pupilShape = "slit" then
      [DrawCmd.fill pupilColor.r pupilColor.g pupilColor.b 255,
       DrawCmd.ellipse 0 0 (pupilSize * 0.3) pupilSize]
    else if pupilShape = "cross" then
      [DrawCmd.fill pupilColor.r pupilColor.g pupilColor.b 255,
       DrawCmd.rect 0 0 (pupilSize * 0.3) pupilSize,
       DrawCmd.rect 0 0 pupilSize (pupilSize * 0.3)]
    else if pupilShape = "void" then
      (countdown 10).flatMap (fun i =>
        let alpha := mapQ (i : ℚ) 0 10 255 0
        let size := mapQ (i : ℚ) 0 10 pupilSize 0
        [DrawCmd.fill 0 0 0 alpha, DrawCmd.ellipse 0 0 size size])
    else
      DrawCmd.fill pupilColor.r pupilColor.g pupilColor.b 255 ::
        drawShape t pupilShape pupilSize
  let glowCmds :=
    if laserGlow > 0.1 then
      (countdown 3).flatMap (fun i =>
        let glowAlpha := laserGlow * 20 * ((i : ℚ) / 3)
        let glowSize := pupilSize + (i : ℚ) * 3
        DrawCmd.fill laserColor.r laserColor.g laserColor.b glowAlpha ::
          drawShape t pupilShape glowSize)
      ++ (DrawCmd.fill 255 255 255 (laserGlow * 30) :: drawShape t pupilShape (pupilSize + 1))
    else []
  [DrawCmd.push, DrawCmd.translate centerX centerY, DrawCmd.translate offsetX offsetY]
    ++ body ++ glowCmds ++ [DrawCmd.pop]

/-- `drawGlow` (src lines 817-838). -/
def drawGlow (t : TrigOps) (centerX centerY : ℚ) (socketSize : ℚ)
    (effectColor : Rgb) : List DrawCmd :=
  [DrawCmd.push, DrawCmd.translate centerX centerY] ++
  (countdown 10).flatMap (fun i =>
    let alpha := mapQ (i : ℚ) 0 10 0 255
    let size := socketSize + (i : ℚ) * 20
    [DrawCmd.fill effectColor.r effectColor.g effectColor.b alpha,
     DrawCmd.ellipse 0 0 size size]) ++
  (countdown 5).flatMap (fun i =>
    let alpha := mapQ (i : ℚ) 0 5 0 255
    let size := socketSize + (i : ℚ) * 8
    [DrawCmd.fill 255 255 255 alpha, DrawCmd.ellipse 0 0 size size]) ++
  [DrawCmd.pop]

/-- `drawAura` (src lines 840-877): twenty four-stroke rays. -/
def drawAura (t : TrigOps) (centerX centerY time animationEnergy socketSize : ℚ)
    (auraColor : Rgb) : List DrawCmd :=
  [DrawCmd.push, DrawCmd.translate centerX centerY] ++
  (List.range 20).flatMap (fun i =>
    let angle := (t.twoPi / 20) * (i : ℚ) + time * 2 * animationEnergy
    let len := 70 + t.sin (time * 3 * animationEnergy + (i : ℚ)) * 40 * animationEnergy
    let x1 := t.cos angle * (socketSize / 2)
    let y1 := t.sin angle * (socketSize / 2)
    let x2 := t.cos angle * (socketSize / 2 + len)
    let y2 := t.sin angle * (socketSize / 2 + len)
    [DrawCmd.stroke auraColor.r auraColor.g auraColor.b 255, DrawCmd.strokeWeight 8,
     DrawCmd.line x1 y1 x2 y2,
     DrawCmd.stroke 255 255 255 255, DrawCmd.strokeWeight 6, DrawCmd.line x1 y1 x2 y2,
     DrawCmd.stroke auraColor.r auraColor.g auraColor.b 255, DrawCmd.strokeWeight 4,
     DrawCmd.line x1 y1 x2 y2,
     DrawCmd.stroke 255 255 255 255, DrawCmd.strokeWeight 2, DrawCmd.line x1 y1 x2 y2]) ++
  [DrawCmd.noStroke, DrawCmd.pop]

/-- `drawSocket` (src lines 434-448). -/
def drawSocket (t : TrigOps) (centerX centerY : ℚ) (hasGlow : Bool)
    (socketShape : String) (socketColor : Rgb) (socketSize : ℚ) : List DrawCmd :=
  let glowPart :=
    if hasGlow then
      (countdown 5).flatMap (fun i =>
        DrawCmd.fill socketColor.r socketColor.g socketColor.b (50 - (i : ℚ) * 8) ::
          drawShape t socketShape (socketSize + (i : ℚ) * 10))
    else []
  [DrawCmd.push, DrawCmd.translate centerX centerY] ++ glowPart ++
    [DrawCmd.fill socketColor.r socketColor.g socketColor.b 255] ++
    drawShape t socketShape socketSize ++ [DrawCmd.pop]

/-- `drawHighlights` (src lines 1172-1190). -/
def drawHighlights (t : TrigOps) (centerX centerY time animationEnergy irisSize : ℚ) :
    List DrawCmd :=
  let offsetX := t.sin time * 5 * animationEnergy
  let offsetY := t.cos (time * 0.7) * 3 * animationEnergy
  [DrawCmd.push, DrawCmd.translate centerX centerY, DrawCmd.translate offsetX offsetY,
   DrawCmd.fill 255 255 255 180,
   DrawCmd.ellipse (-(irisSize / 4)) (-(irisSize / 4)) (irisSize / 4) (irisSize / 4),
   DrawCmd.fill 255 255 255 100,
   DrawCmd.ellipse (irisSize / 3) (irisSize / 3) (irisSize / 6) (irisSize / 6),
   DrawCmd.pop]

end Eyeball

namespace Eyeball

/-- `drawLaser` (src lines 879-1048).  When the materialization phase is
below the 0.2 threshold the routine pops the saved state and returns early
(src lines 894-897); otherwise it strokes two wavy beams in six layers
each, then source particles and travelling particles gated on the fade-in
and charge-up factors. -/
def drawLaser (t : TrigOps) (centerX centerY time animationEnergy : ℚ)
    (laserColor : Rgb) : List DrawCmd :=
  let offsetX := t.sin time * 5 * animationEnergy
  let offsetY := t.cos (time * 0.7) * 3 * animationEnergy
  let pre := [DrawCmd.push, DrawCmd.translate centerX centerY,
              DrawCmd.translate offsetX offsetY]
  let materializationCycle := time * animationEnergy * 0.4
  let materializationPhase := (t.sin materializationCycle + 1) / 2
  if materializationPhase < 0.2 then pre ++ [DrawCmd.pop]
  else
    let matIntensity := mapQ materializationPhase 0.2 1 0 1
    let fadeIn := t.sin (matIntensity * t.pi)
    let sweepCycle := time * animationEnergy * 0.6
    let sweepStart := t.pi * 0.25
    let sweepEnd := t.pi * 0.75
    let sweepRange := sweepEnd - sweepStart
    let sweepProgress := (t.sin sweepCycle + 1) / 2
    let laserAngle := sweepStart + sweepProgress * sweepRange
    let pulseSpeed := animationEnergy * 12
    let pulseIntensity := 0.5 + 0.5 * t.sin (time * pulseSpeed)
    let chargeUpEffect := 0.3 + 0.7 * t.sin (time * pulseSpeed * 1.5)
    let laserLength := 400 * fadeIn
    let beams := (List.range 2).flatMap (fun beam =>
      let beamIntensity := (if beam = 0 then 1 else 0.7 - (beam : ℚ) * 0.15) * fadeIn
      let waveOffset := (beam : ℚ) * 0.25
      let points := (List.range 11).map (fun i =>
        let progress := (i : ℚ) / 10
        let distance := progress * laserLength
        let waveFreq := 8 + (beam : ℚ)
        let baseWaveAmp := 3 * animationEnergy * beamIntensity
        let timeOffset := time * 2 + waveOffset
        let waveAmp := baseWaveAmp * (0.3 + 0.7 * progress) * fadeIn
        let perpAngle := laserAngle + t.pi / 2
        let shimmer := 1 + 0.1 * t.sin (time * 4 + progress * 3)
        let waveX := t.cos perpAngle * t.sin (progress * waveFreq + timeOffset) * waveAmp * shimmer
        let waveY := t.sin perpAngle * t.sin (progress * waveFreq + timeOffset) * waveAmp * shimmer
        let fanAngle := ((beam : ℚ) - (2 - 1) / 2) * 0.015
        let fanX := t.cos (laserAngle + fanAngle) * distance
        let fanY := t.sin (laserAngle + fanAngle) * distance
        (fanX + waveX, fanY + waveY))
      let layers : List (ℚ × ℚ × Rgb) :=
        [(24 * beamIntensity * pulseIntensity, (40 * beamIntensity * chargeUpEffect, laserColor)),
         (18 * beamIntensity * pulseIntensity, (80 * beamIntensity * pulseIntensity, laserColor)),
         (14 * beamIntensity * pulseIntensity, (140 * beamIntensity * pulseIntensity, ⟨255, 255, 255⟩)),
         (10 * beamIntensity, (200 * beamIntensity, laserColor)),
         (6 * beamIntensity, (255 * beamIntensity, ⟨255, 255, 255⟩)),
         (3 * beamIntensity, (255 * beamIntensity, laserColor))]
      layers.flatMap (fun layer =>
        let finalAlpha := layer.2.1 * fadeIn
        [DrawCmd.stroke layer.2.2.r layer.2.2.g layer.2.2.b finalAlpha,
         DrawCmd.strokeWeight layer.1, DrawCmd.beginShape, DrawCmd.noFill]
        ++ points.map (fun pt => DrawCmd.vertex pt.1 pt.2)
        ++ [DrawCmd.endShape false]))
    let sourceParticles :=
      if fadeIn > 0.5 then
        (List.range 8).flatMap (fun i =>
          let angle := ((i : ℚ) / 8) * t.twoPi + time * 3
          let radius := 15 + 10 * t.sin (time * 6 + (i : ℚ))
          let particleX := t.cos angle * radius * fadeIn
          let particleY := t.sin angle * radius * fadeIn
          [DrawCmd.fill 255 255 255 (180 * fadeIn),
           DrawCmd.ellipse particleX particleY 4 4,
           DrawCmd.fill laserColor.r laserColor.g laserColor.b (255 * fadeIn),
           DrawCmd.ellipse particleX particleY 2 2])
      else []
    let energyParticles :=
      if chargeUpEffect > 0.5 ∧ fadeIn > 0.3 then
        (List.range 8).flatMap (fun i =>
          let progress := (i : ℚ) / 8 + jsMod (time * 0.7) 1
          let distance := progress * laserLength
          let particleBeam := i % 2
          let fanAngle := ((particleBeam : ℚ) - (2 - 1) / 2) * 0.015
          let x0 := t.cos (laserAngle + fanAngle) * distance
          let y0 := t.sin (laserAngle + fanAngle) * distance
          let perpAngle := laserAngle + t.pi / 2
          let particleWaveAmp := 2 * progress * fadeIn
          let waveX := t.cos perpAngle * t.sin (progress * 8 + time * 3) * particleWaveAmp
          let waveY := t.sin perpAngle * t.sin (progress * 8 + time * 3) * particleWaveAmp
          let x := x0 + waveX
          let y := y0 + waveY
          let particleSize := 4 + 6 * chargeUpEffect * fadeIn
          [DrawCmd.fill 255 255 255 (220 * chargeUpEffect * fadeIn),
           DrawCmd.ellipse x y (particleSize * 1.5) (particleSize * 1.5),
           DrawCmd.fill laserColor.r laserColor.g laserColor.b (255 * fadeIn),
           DrawCmd.ellipse x y particleSize particleSize,
           DrawCmd.fill 255 255 255 (120 * fadeIn),
           DrawCmd.ellipse (x - waveX * 0.3) (y - waveY * 0.3)
             (particleSize * 0.5) (particleSize * 0.5)])
      else []
    pre ++ beams ++ sourceParticles ++ energyParticles ++ [DrawCmd.noStroke, DrawCmd.pop]

/-- `drawParticles` (src lines 1050-1089): 25 orbiting particles with two
trailing copies each. -/
def drawParticles (t : TrigOps) (centerX centerY time animationEnergy socketSize : ℚ)
    (effectColor : Rgb) : List DrawCmd :=
  [DrawCmd.push, DrawCmd.translate centerX centerY] ++
  (List.range 25).flatMap (fun i =>
    let angle := (t.twoPi / 25) * (i : ℚ) + time * 1.5 * animationEnergy
    let radius := socketSize / 2 +
      t.sin (time * 2 * animationEnergy + (i : ℚ)) * 40 * animationEnergy
    let x := t.cos angle * radius
    let y := t.sin angle * radius
    let size := 5 + t.sin (time * 4 * animationEnergy + (i : ℚ)) * 4 * animationEnergy
    let trailX := x - t.cos angle * 15
    let trailY := y - t.sin angle * 15
    let trail2X := x - t.cos angle * 25
    let trail2Y := y - t.sin angle * 25
    [DrawCmd.fill effectColor.r effectColor.g effectColor.b 255,
     DrawCmd.ellipse x y (size * 1.5) (size * 1.5),
     DrawCmd.fill 255 255 255 255, DrawCmd.ellipse x y size size,
     DrawCmd.fill effectColor.r effectColor.g effectColor.b 255,
     DrawCmd.ellipse x y (size * 0.6) (size * 0.6),
     DrawCmd.fill effectColor.r effectColor.g effectColor.b 255,
     DrawCmd.ellipse trailX trailY (size * 0.8) (size * 0.8),
     DrawCmd.fill effectColor.r effectColor.g effectColor.b 200,
     DrawCmd.ellipse trail2X trail2Y (size * 0.5) (size * 0.5)]) ++
  [DrawCmd.pop]

/-- One stroked pass of a lightning bolt (src lines 1107-1123, repeated at
1126-1144 and 1147-1165 with different stroke color and width): a fresh
jagged path whose six steps each consume three stream draws. -/
def lightningPass (t : TrigOps) (startAngle startRadius endRadius : ℚ)
    (col : Rgb) (w : ℚ) (s : ℕ) : List DrawCmd × ℕ :=
  let x0 := t.cos startAngle * startRadius
  let y0 := t.sin startAngle * startRadius
  let steps := statedFor 6 (fun step si =>
    let progress := (step : ℚ) / 6
    let targetRadius := lerpQ startRadius endRadius progress
    let (jA, s1) := SeededRandom.range (-0.4) 0.4 si
    let targetAngle := startAngle + jA
    let (jX, s2) := SeededRandom.range (-8) 8 s1
    let (jY, s3) := SeededRandom.range (-8) 8 s2
    ([DrawCmd.vertex (t.cos targetAngle * targetRadius + jX)
        (t.sin targetAngle * targetRadius + jY)], s3)) s
  ([DrawCmd.stroke col.r col.g col.b 255, DrawCmd.strokeWeight w,
    DrawCmd.beginShape, DrawCmd.noFill, DrawCmd.vertex x0 y0] ++ steps.1 ++
     [DrawCmd.endShape false],
   steps.2)

/-- `drawLightning` (src lines 1091-1170): `3 + floor(range(0, 2))` bolts,
each a per-bolt random start angle followed by three stroked passes. -/
def drawLightning (t : TrigOps) (centerX centerY irisSize socketSize : ℚ) (s : ℕ) :
    List DrawCmd × ℕ :=
  let (nb, s1) := SeededRandom.range 0 2 s
  let numBolts : ℤ := 3 + ⌊nb⌋
  let startRadius := irisSize / 2
  let endRadius := socketSize / 2 + 20
  let bolts := statedFor numBolts.toNat (fun i si =>
    let (jStart, t1) := SeededRandom.range (-0.3) 0.3 si
    let startAngle := (t.twoPi / (numBolts : ℚ)) * (i : ℚ) + jStart
    let p1 := lightningPass t startAngle startRadius endRadius ⟨255, 255, 255⟩ 8 t1
    let p2 := lightningPass t startAngle startRadius endRadius ⟨200, 200, 255⟩ 5 p1.2
    let p3 := lightningPass t startAngle startRadius endRadius ⟨255, 255, 255⟩ 2 p2.2
    (p1.1 ++ p2.1 ++ p3.1, p3.2)) s1
  ([DrawCmd.push, DrawCmd.translate centerX centerY] ++ bolts.1 ++
     [DrawCmd.noStroke, DrawCmd.pop],
   bolts.2)

/-- `Eyeball.draw(ctx)` (src lines 386-432): advances `this.time`, then
emits the eleven layer passes in fixed order; the sclera (veined) and
lightning layers thread `this.rng`.  Returns the tagged command list of
the frame and the instance state after the call. -/
def draw (t : TrigOps) (e : Eyeball) : List (Layer × DrawCmd) × Eyeball :=
  let time := e.time + e.animationSpeed * e.spec.animationEnergy
  let bgL := tagLayer Layer.background [DrawCmd.background 10 10 15]
  let glowL := if e.spec.hasGlow then
      tagLayer Layer.glow (drawGlow t e.centerX e.centerY e.spec.socketSize e.spec.effectColor)
    else []
  let auraL := if e.spec.hasAura then
      tagLayer Layer.aura (drawAura t e.centerX e.centerY time e.spec.animationEnergy
        e.spec.socketSize e.spec.auraColor)
    else []
  let socketL := tagLayer Layer.socket (drawSocket t e.centerX e.centerY e.spec.hasGlow
    e.spec.socketShape e.spec.socketColor e.spec.socketSize)
  let scleraR := drawSclera t e.centerX e.centerY e.spec.scleraTexture e.spec.socketShape
    e.spec.scleraColor e.spec.socketSize e.rng
  let scleraL := tagLayer Layer.sclera scleraR.1
  let irisL := tagLayer Layer.iris (drawIris t e.centerX e.centerY time
    e.spec.animationEnergy e.spec.hasLaser e.spec.irisPattern e.spec.irisShape
    e.spec.irisColor1 e.spec.irisColor2 e.spec.laserColor e.spec.irisSize)
  let pupilL := tagLayer Layer.pupil (drawPupil t e.centerX e.centerY time
    e.spec.animationEnergy e.spec.hasLaser e.spec.pupilShape e.spec.pupilColor
    e.spec.laserColor e.spec.pupilSize)
  let hlL := tagLayer Layer.highlights (drawHighlights t e.centerX e.centerY time
    e.spec.animationEnergy e.spec.irisSize)
  let laserL := if e.spec.hasLaser then
      tagLayer Layer.laser (drawLaser t e.centerX e.centerY time e.spec.animationEnergy
        e.spec.laserColor)
    else []
  let particlesL := if e.spec.hasParticles then
      tagLayer Layer.particles (drawParticles t e.centerX e.centerY time
        e.spec.animationEnergy e.spec.socketSize e.spec.effectColor)
    else []
  let lightR := if e.spec.hasLightning then
      drawLightning t e.centerX e.centerY e.spec.irisSize e.spec.socketSize scleraR.2
    else ([], scleraR.2)
  let lightningL := tagLayer Layer.lightning lightR.1
  (bgL ++ glowL ++ auraL ++ socketL ++ scleraL ++ irisL ++ pupilL ++ hlL ++
     laserL ++ particlesL ++ lightningL,
   { e with time := time, rng := lightR.2 })

end Eyeball

/-! ### Auxiliary notions used by the verification -/

/-- One call to the public surface of `SeededRandom`. -/
inductive RngCall where
  | next
  | range (lo hi : ℚ)
  | rangeOne (hi : ℚ)
  | intIn (lo hi : ℚ)
  | boolean (p : ℚ)
deriving DecidableEq

/-- One output of a `SeededRandom` call. -/
inductive RngOut where
  | num (v : ℚ)
  | int (v : ℤ)
  | bool (b : Bool)
deriving DecidableEq

/-- Run a call sequence against a stream state, collecting the outputs. -/
def runCalls : List RngCall → ℕ → List RngOut × ℕ
  | [], s => ([], s)
  | c :: cs, s =>
    let (o, s1) :=
      match c with
      | RngCall.next => let (v, s1) := SeededRandom.next s; (RngOut.num v, s1)
      | RngCall.range lo hi => let (v, s1) := SeededRandom.range lo hi s; (RngOut.num v, s1)
      | RngCall.rangeOne hi => let (v, s1) := SeededRandom.rangeOne hi s; (RngOut.num v, s1)
      | RngCall.intIn lo hi => let (v, s1) := SeededRandom.intIn lo hi s; (RngOut.int v, s1)
      | RngCall.boolean p => let (b, s1) := SeededRandom.boolean p s; (RngOut.bool b, s1)
    let (os, s2) := runCalls cs s1
    (o :: os, s2)

/-- Effect of one command on the saved-state stack depth: `push` deepens,
`pop` shallows (underflow is `none`), all else leaves it unchanged. -/
def depthStep (c : DrawCmd) (d : ℕ) : Option ℕ :=
  match c, d with
  | DrawCmd.push, d => some (d + 1)
  | DrawCmd.pop, 0 => none
  | DrawCmd.pop, k + 1 => some k
  | _, d => some d

/-- Run a command list against a stack depth: `some` final depth, or
`none` if some `pop` underflowed. -/
def runDepth : List DrawCmd → ℕ → Option ℕ
  | [], d => some d
  | c :: l, d => (depthStep c d).bind (runDepth l)

/-- A command list is `Neutral` when, from any starting depth, it neither
underflows nor changes the depth: every `push` is matched by a `pop`. -/
@[reducible] def Neutral (l : List DrawCmd) : Prop := ∀ d, runDepth l d = some d

/-- Whether a command touches the saved-state stack. -/
def isPushPop (c : DrawCmd) : Bool :=
  c = DrawCmd.push ∨ c = DrawCmd.pop

/-- The three always-on-top effect layers of the frame. -/
def isEffectLayer : Layer → Bool
  | Layer.laser => true
  | Layer.particles => true
  | Layer.lightning => true
  | _ => false

/-! ### Concrete instances used by witnesses and counterexamples -/

/-- A concrete realisation of `TrigOps` (any one suffices for the
structural counterexamples, whose discriminating values come from the
random stream, not from the trigonometry). -/
def trig0 : TrigOps := ⟨314159 / 100000, fun _ => 0, fun _ => 0⟩

/-- A concrete attribute record with a veined sclera and no effect flags. -/
def specVeined : EyeballSpec :=
  { socketShape := "circle", socketSize := 100, socketColor := ⟨20, 20, 30⟩,
    scleraColor := ⟨255, 255, 255⟩, scleraTexture := "veined",
    irisSize := 60, irisShape := "circle", irisColor1 := ⟨0, 150, 255⟩,
    irisColor2 := ⟨255, 0, 150⟩, irisPattern := "solid",
    pupilSize := 20, pupilShape := "circle", pupilColor := ⟨0, 0, 0⟩,
    hasGlow := false, hasLaser := false, hasAura := false,
    hasParticles := false, hasLightning := false,
    animationEnergy := 1 / 2, effectColor := ⟨255, 0, 255⟩,
    laserColor := ⟨255, 0, 0⟩, auraColor := ⟨100, 0, 255⟩,
    style := "organic", intensity := 1 }

/-- A concrete instance carrying `specVeined`. -/
def eVeined : Eyeball :=
  { w := 300, h := 300, centerX := 150, centerY := 150, seed := 1, rng := 1,
    spec := specVeined, metadata := ⟨[]⟩, time := 0, animationSpeed := 1 / 100 }

/-- The state of `eVeined` after one frame, with the time accumulator set
back to its pre-frame value: identical spec, surface and elapsed time, but
the advanced random-stream state of the instance. -/
def eVeinedNext : Eyeball :=
  { (Eyeball.draw trig0 eVeined).2 with time := eVeined.time }

/-- `specVeined` with a smooth sclera and the lightning flag set. -/
def specLightning : EyeballSpec :=
  { specVeined with scleraTexture := "smooth", hasLightning := true }

/-- A concrete instance carrying `specLightning`. -/
def eLightning : Eyeball :=
  { w := 300, h := 300, centerX := 150, centerY := 150, seed := 7, rng := 7,
    spec := specLightning, metadata := ⟨[]⟩, time := 0, animationSpeed := 1 / 100 }

/-- `specVeined` with a smooth sclera and the particles flag set. -/
def specParticles : EyeballSpec :=
  { specVeined with scleraTexture := "smooth", hasParticles := true }

/-- A concrete instance carrying `specParticles`. -/
def eParticles : Eyeball :=
  { w := 300, h := 300, centerX := 150, centerY := 150, seed := 3, rng := 3,
    spec := specParticles, metadata := ⟨[]⟩, time := 0, animationSpeed := 1 / 100 }

/-- `specVeined` with a smooth sclera (no stream use while rendering). -/
def specSmooth : EyeballSpec := { specVeined with scleraTexture := "smooth" }

/-- Two instances agreeing on spec, geometry, speed and time but holding
different random-stream states. -/
def eSmoothA : Eyeball :=
  { w := 300, h := 300, centerX := 150, centerY := 150, seed := 1, rng := 1,
    spec := specSmooth, metadata := ⟨[]⟩, time := 0, animationSpeed := 1 / 100 }

/-- See `eSmoothA`; only the stream state differs. -/
def eSmoothB : Eyeball := { eSmoothA with seed := 99, rng := 99 }

/-! ### Claim theorems -/

/-- C1: constructing two Eyeball instances from the same seed (each with
its own fresh stream) yields identical attribute records and identical
ordered trait manifests; and two streams with equal initial states run on
the same call sequence produce identical output sequences. -/
theorem c1_seed_determinism (seed : ℕ) (w h : ℚ) (e1 e2 : Eyeball)
    (h1 : e1 = Eyeball.new seed w h) (h2 : e2 = Eyeball.new seed w h) :
    (e1.spec = e2.spec ∧ e1.metadata = e2.metadata ∧ e1 = e2) ∧
    ∀ (cs : List RngCall) (s1 s2 : ℕ), s1 = s2 → runCalls cs s1 = runCalls cs s2 := by
  subst h1; subst h2
  exact ⟨⟨rfl, rfl, rfl⟩, fun cs s1 s2 hs => by rw [hs]⟩

/-- Witness for `c1_seed_determinism` at seed 42. -/
theorem c1_seed_determinism_witness :
    (Eyeball.new 42 300 300 = Eyeball.new 42 300 300) ∧
    (Eyeball.new 42 300 300).spec = (Eyeball.new 42 300 300).spec :=
  ⟨rfl, ((c1_seed_determinism 42 300 300 _ _ rfl rfl).1).1⟩

/-- C3: contract of the random stream. -/
theorem c3_random_stream_contract :
    (∀ s : ℕ, 0 ≤ (SeededRandom.next s).1 ∧ (SeededRandom.next s).1 < 1 ∧
      SeededRandom.next s = ((SeededRandom.lcg s : ℚ) / 4294967296, SeededRandom.lcg s)) ∧
    (∀ (lo hi : ℚ) (s : ℕ), SeededRandom.range lo hi s =
      (lo + (SeededRandom.next s).1 * (hi - lo), SeededRandom.lcg s)) ∧
    (∀ (hi : ℚ) (s : ℕ), SeededRandom.rangeOne hi s = SeededRandom.range 0 hi s) ∧
    (∀ (lo hi : ℚ) (s : ℕ), SeededRandom.intIn lo hi s =
      (⌊(SeededRandom.range lo (hi + 1) s).1⌋, SeededRandom.lcg s)) ∧
    (∀ (α : Type) (l : List α) (s : ℕ), SeededRandom.choice l s =
      (l.get? (SeededRandom.intIn 0 ((l.length : ℚ) - 1) s).1.toNat, SeededRandom.lcg s)) ∧
    (∀ (p : ℚ) (s : ℕ), SeededRandom.boolean p s =
      (decide ((SeededRandom.next s).1 < p), SeededRandom.lcg s)) ∧
    (∀ (a b : ℤ) (s : ℕ), a ≤ b →
      a ≤ (SeededRandom.intIn (a : ℚ) (b : ℚ) s).1 ∧
        (SeededRandom.intIn (a : ℚ) (b : ℚ) s).1 ≤ b) := by
  have hlt : ∀ s : ℕ, (SeededRandom.lcg s : ℚ) < 4294967296 := by
    intro s
    have h : SeededRandom.lcg s < 4294967296 := Nat.mod_lt _ (by norm_num)
    exact_mod_cast h
  have h0 : ∀ s : ℕ, 0 ≤ (SeededRandom.next s).1 := by
    intro s
    simp only [SeededRandom.next]
    positivity
  have h1 : ∀ s : ℕ, (SeededRandom.next s).1 < 1 := by
    intro s
    simp only [SeededRandom.next]
    rw [div_lt_one (by norm_num)]
    exact hlt s
  refine ⟨fun s => ⟨h0 s, h1 s, rfl⟩, fun lo hi s => rfl, fun hi s => rfl,
    fun lo hi s => rfl, fun α l s => rfl, fun p s => rfl, ?_⟩
  intro a b s hab
  have hab' : (a : ℚ) ≤ (b : ℚ) := by exact_mod_cast hab
  have hv0 := h0 s
  have hv1 := h1 s
  constructor
  · show a ≤ ⌊(a : ℚ) + (SeededRandom.next s).1 * (((b : ℚ) + 1) - a)⌋
    rw [Int.le_floor]
    nlinarith
  · show ⌊(a : ℚ) + (SeededRandom.next s).1 * (((b : ℚ) + 1) - a)⌋ ≤ b
    have hlt2 : (a : ℚ) + (SeededRandom.next s).1 * (((b : ℚ) + 1) - a) < ((b + 1 : ℤ) : ℚ) := by
      push_cast
      nlinarith
    have := Int.floor_lt.mpr hlt2
    omega

/-- Witness for `c3_random_stream_contract` at `a = 0`, `b = 5`, state 3. -/
theorem c3_random_stream_contract_witness :
    ((0 : ℤ) ≤ 5) ∧ ((0 : ℤ) ≤ (SeededRandom.intIn ((0 : ℤ) : ℚ) ((5 : ℤ) : ℚ) 3).1 ∧
      (SeededRandom.intIn ((0 : ℤ) : ℚ) ((5 : ℤ) : ℚ) 3).1 ≤ 5) :=
  ⟨by decide, (c3_random_stream_contract.2.2.2.2.2.2) 0 5 3 (by decide)⟩

/-- The value returned by `next` is non-negative. -/
lemma next_nonneg (s : ℕ) : 0 ≤ (SeededRandom.next s).1 := by
  simp only [SeededRandom.next]
  positivity

/-- The value returned by `next` is below 1. -/
lemma next_lt_one (s : ℕ) : (SeededRandom.next s).1 < 1 := by
  have h : SeededRandom.lcg s < 4294967296 := Nat.mod_lt _ (by norm_num)
  simp only [SeededRandom.next]
  rw [div_lt_one (by norm_num)]
  exact_mod_cast h

/-- A draw from `range(0, 2)` is non-negative. -/
lemma range02_nonneg (s : ℕ) : 0 ≤ (SeededRandom.range 0 2 s).1 := by
  have := next_nonneg s
  simp only [SeededRandom.range]
  nlinarith

/-- A draw from `range(0, 2)` is below 2. -/
lemma range02_lt_two (s : ℕ) : (SeededRandom.range 0 2 s).1 < 2 := by
  have h0 := next_nonneg s
  have h1 := next_lt_one s
  simp only [SeededRandom.range]
  nlinarith

/-- C6: for every attribute record (hence every seed and flag combination)
the generated trait manifest has exactly the six fixed entries, in order:
Portal Frame, Sclera Essence, Iris Constellation, Pupil Gate, Arcane
Powers, Essence Type. -/
theorem c6_manifest_six_entries (spec : EyeballSpec) (s : ℕ) :
    ((Eyeball.generateMetadata spec s).1.traits.map Trait.name) =
      ["Portal Frame", "Sclera Essence", "Iris Constellation", "Pupil Gate",
       "Arcane Powers", "Essence Type"] := by
  unfold Eyeball.generateMetadata
  by_cases h : 0 < (Eyeball.activePowers spec).length <;>
    simp [h, SeededRandom.range, SeededRandom.next]

/-- C7: the Arcane Powers entry joins the labels of exactly the active
boolean flags with " + " and carries a score `2.0 * activeCount + bonus`
with `bonus ∈ [0, 2)`; when all five flags are false its value is exactly
the placeholder "Pure Essence (1.0)", never an empty join. -/
theorem c7_arcane_powers_trait (spec : EyeballSpec) (s : ℕ) :
    ∃ v : String,
      (Eyeball.generateMetadata spec s).1.traits.get? 4 = some ⟨"Arcane Powers", v⟩ ∧
      (Eyeball.activePowers spec = [] → v = "Pure Essence (1.0)") ∧
      (Eyeball.activePowers spec ≠ [] → ∃ bonus : ℚ, 0 ≤ bonus ∧ bonus < 2 ∧
        v = String.intercalate " + " (Eyeball.activePowers spec) ++ " (" ++
          Eyeball.jsToFixed1 (((Eyeball.activePowers spec).length : ℚ) * 2.0 + bonus) ++ ")") := by
  by_cases h : 0 < (Eyeball.activePowers spec).length
  · refine ⟨String.intercalate " + " (Eyeball.activePowers spec) ++ " (" ++
      Eyeball.jsToFixed1 (((Eyeball.activePowers spec).length : ℚ) * 2.0 +
        (SeededRandom.range 0 2 (SeededRandom.range 1 10 s).2).1) ++ ")", ?_, ?_, ?_⟩
    · unfold Eyeball.generateMetadata
      simp [h]
    · intro he; rw [he] at h; simp at h
    · intro _
      exact ⟨(SeededRandom.range 0 2 (SeededRandom.range 1 10 s).2).1,
        range02_nonneg _, range02_lt_two _, rfl⟩
  · have hnil : Eyeball.activePowers spec = [] := List.length_eq_zero.mp (by omega)
    refine ⟨"Pure Essence (1.0)", ?_, fun _ => rfl, fun hne => absurd hnil hne⟩
    unfold Eyeball.generateMetadata
    simp [h]

/-- any-flag helper. -/
lemma activePowers_pos_iff (spec : EyeballSpec) :
    0 < (Eyeball.activePowers spec).length ↔
      (spec.hasGlow || spec.hasLaser || spec.hasAura || spec.hasParticles ||
        spec.hasLightning) = true := by
  cases hg : spec.hasGlow <;> cases hl : spec.hasLaser <;> cases ha : spec.hasAura <;>
    cases hp : spec.hasParticles <;> cases hli : spec.hasLightning <;>
    simp [Eyeball.activePowers, hg, hl, ha, hp, hli]

/-- C10: trait generation consumes one stream draw unconditionally (the
Sclera Essence rarity) and one more exactly when at least one effect flag
is set (the Arcane Powers bonus); the per-instance animation speed is
sampled from the resulting stream state immediately afterwards, so its
value depends on whether any effect flag is set. -/
theorem c10_metadata_stream_consumption :
    (∀ (spec : EyeballSpec) (s : ℕ),
      (Eyeball.generateMetadata spec s).2 =
        if (spec.hasGlow || spec.hasLaser || spec.hasAura || spec.hasParticles ||
            spec.hasLightning) then
          SeededRandom.lcg (SeededRandom.lcg s)
        else SeededRandom.lcg s) ∧
    (∀ (seed : ℕ) (w h : ℚ),
      (Eyeball.new seed w h).animationSpeed =
        (SeededRandom.range 0.01 0.05
          (Eyeball.generateMetadata (Eyeball.generateProperties seed).1
            (Eyeball.generateProperties seed).2).2).1) := by
  constructor
  · intro spec s
    unfold Eyeball.generateMetadata
    by_cases h : 0 < (Eyeball.activePowers spec).length
    · have h2 := (activePowers_pos_iff spec).mp h
      simp [h, h2, SeededRandom.range, SeededRandom.next]
    · have h2 : (spec.hasGlow || spec.hasLaser || spec.hasAura || spec.hasParticles ||
          spec.hasLightning) = false := by
        rw [← Bool.not_eq_true]
        exact fun hc => h ((activePowers_pos_iff spec).mpr hc)
      simp [h, h2, SeededRandom.range, SeededRandom.next]
  · intro seed w h
    rfl

/-- Witness for `c7_arcane_powers_trait`: the all-flags-false record. -/
theorem c7_arcane_powers_trait_witness :
    (Eyeball.generateMetadata specVeined 0).1.traits.get? 4 =
      some ⟨"Arcane Powers", "Pure Essence (1.0)"⟩ := by
  obtain ⟨v, hv, hp, _⟩ := c7_arcane_powers_trait specVeined 0
  have hnil : Eyeball.activePowers specVeined = [] := by decide
  rw [hp hnil] at hv
  exact hv

/-- Length bound for the fractal recursion, by strong induction on the
depth measure. -/
lemma drawFractalLayer_length_le :
    ∀ (n : ℕ) (t : TrigOps) (c1 c2 : Rgb) (size x y : ℚ) (depth : ℤ),
      depth.toNat = n →
      (Eyeball.drawFractalLayer t c1 c2 size x y depth).length + 2 ≤ 2 * 4 ^ n := by
  intro n
  induction n using Nat.strong_induction_on with
  | _ n ih =>
    intro t c1 c2 size x y depth hd
    have hone : 1 ≤ 4 ^ n := Nat.one_le_pow n 4 (by norm_num)
    rw [Eyeball.drawFractalLayer]
    split
    · simp only [List.length_nil]
      linarith
    · rename_i hcond
      push_neg at hcond
      have hdpos : 0 < depth := hcond.1
      have hn : 0 < n := by omega
      have h1 : (depth - 1).toNat = n - 1 := by omega
      have b1 := ih (n - 1) (by omega) t c1 c2 (size * 0.6) (x - size * 0.3) y (depth - 1) h1
      have b2 := ih (n - 1) (by omega) t c1 c2 (size * 0.6) (x + size * 0.3) y (depth - 1) h1
      have b3 := ih (n - 1) (by omega) t c1 c2 (size * 0.6) x (y - size * 0.3) (depth - 1) h1
      have b4 := ih (n - 1) (by omega) t c1 c2 (size * 0.6) x (y + size * 0.3) (depth - 1) h1
      have hpow : 4 ^ n = 4 * 4 ^ (n - 1) := by
        conv_lhs => rw [show n = (n - 1) + 1 by omega]
        ring
      simp only [List.length_append, List.length_cons, List.length_nil]
      linarith

/-- C9: the recursive fractal iris pattern is bounded: entry at explicit
depth 4, immediate return when `depth ≤ 0` or `size < 5`, and the emitted
command list is finite with length at most `2 * 4 ^ depth`. -/
theorem c9_fractal_bounded :
    (∀ (t : TrigOps) (c1 c2 : Rgb) (size x y : ℚ) (depth : ℤ), depth ≤ 0 →
      Eyeball.drawFractalLayer t c1 c2 size x y depth = []) ∧
    (∀ (t : TrigOps) (c1 c2 : Rgb) (size x y : ℚ) (depth : ℤ), size < 5 →
      Eyeball.drawFractalLayer t c1 c2 size x y depth = []) ∧
    (∀ (t : TrigOps) (c1 c2 : Rgb) (size x y : ℚ) (depth : ℤ),
      (Eyeball.drawFractalLayer t c1 c2 size x y depth).length + 2 ≤ 2 * 4 ^ depth.toNat) ∧
    (∀ (t : TrigOps) (c1 c2 : Rgb) (irisSize : ℚ),
      Eyeball.drawFractalPattern t c1 c2 irisSize =
        Eyeball.drawFractalLayer t c1 c2 (irisSize / 2) 0 0 4) := by
  refine ⟨?_, ?_, ?_, fun t c1 c2 irisSize => rfl⟩
  · intro t c1 c2 size x y depth h
    rw [Eyeball.drawFractalLayer, if_pos (Or.inl h)]
  · intro t c1 c2 size x y depth h
    rw [Eyeball.drawFractalLayer, if_pos (Or.inr h)]
  · intro t c1 c2 size x y depth
    exact drawFractalLayer_length_le depth.toNat t c1 c2 size x y depth rfl

/-- Witness for `c9_fractal_bounded`: both base cases at concrete inputs. -/
theorem c9_fractal_bounded_witness :
    ((-1 : ℤ) ≤ 0 ∧
      Eyeball.drawFractalLayer trig0 ⟨0, 150, 255⟩ ⟨255, 0, 150⟩ 30 0 0 (-1) = []) ∧
    ((3 : ℚ) < 5 ∧
      Eyeball.drawFractalLayer trig0 ⟨0, 150, 255⟩ ⟨255, 0, 150⟩ 3 0 0 4 = []) :=
  ⟨⟨by decide, c9_fractal_bounded.1 trig0 ⟨0, 150, 255⟩ ⟨255, 0, 150⟩ 30 0 0 (-1) (by decide)⟩,
   ⟨by norm_num, c9_fractal_bounded.2.1 trig0 ⟨0, 150, 255⟩ ⟨255, 0, 150⟩ 3 0 0 4 (by norm_num)⟩⟩

/-- Every element of a tagged layer carries that layer. -/
lemma tagLayer_fst {L : Layer} {cs : List DrawCmd} {x : Layer × DrawCmd}
    (hx : x ∈ tagLayer L cs) : x.1 = L := by
  simp only [tagLayer, List.mem_map] at hx
  obtain ⟨c, _, rfl⟩ := hx
  rfl

/-- In a list split as `base ++ eff` with the predicate false on all of
`base` and true on all of `eff`, any true-position index is strictly after
any false-position index. -/
lemma effects_last_aux {α : Type} (P : α → Bool) (base eff : List α)
    (hb : ∀ x ∈ base, P x = false) (he : ∀ x ∈ eff, P x = true)
    {i j : ℕ} {li lj : α}
    (hi : (base ++ eff).get? i = some li) (hj : (base ++ eff).get? j = some lj)
    (hPi : P li = true) (hPj : P lj = false) : j < i := by
  have hi' : base.length ≤ i := by
    by_contra hlt
    push_neg at hlt
    rw [List.get?_append hlt] at hi
    have h := hb li (List.get?_mem hi)
    rw [h] at hPi
    exact absurd hPi (by simp)
  have hj' : j < base.length := by
    by_contra hge
    push_neg at hge
    rw [List.get?_append_right hge] at hj
    have h := he lj (List.get?_mem hj)
    rw [h] at hPj
    exact absurd hPj (by simp)
  omega

/-- The frame command list splits into a non-effect prefix (background,
glow, aura, socket, sclera, iris, pupil, highlights) followed by an
effect-only suffix (laser, particles, lightning). -/
lemma draw_decomp (t : TrigOps) (e : Eyeball) :
    ∃ base eff, (Eyeball.draw t e).1 = base ++ eff ∧
      (∀ x ∈ base, isEffectLayer x.1 = false) ∧
      (∀ x ∈ eff, isEffectLayer x.1 = true) := by
  refine ⟨tagLayer Layer.background [DrawCmd.background 10 10 15] ++
      ((if e.spec.hasGlow then
          tagLayer Layer.glow (Eyeball.drawGlow t e.centerX e.centerY e.spec.socketSize
            e.spec.effectColor)
        else []) ++
       ((if e.spec.hasAura then
          tagLayer Layer.aura (Eyeball.drawAura t e.centerX e.centerY
            (e.time + e.animationSpeed * e.spec.animationEnergy) e.spec.animationEnergy
            e.spec.socketSize e.spec.auraColor)
         else []) ++
        (tagLayer Layer.socket (Eyeball.drawSocket t e.centerX e.centerY e.spec.hasGlow
           e.spec.socketShape e.spec.socketColor e.spec.socketSize) ++
         (tagLayer Layer.sclera (Eyeball.drawSclera t e.centerX e.centerY
            e.spec.scleraTexture e.spec.socketShape e.spec.scleraColor
            e.spec.socketSize e.rng).1 ++
          (tagLayer Layer.iris (Eyeball.drawIris t e.centerX e.centerY
             (e.time + e.animationSpeed * e.spec.animationEnergy) e.spec.animationEnergy
             e.spec.hasLaser e.spec.irisPattern e.spec.irisShape e.spec.irisColor1
             e.spec.irisColor2 e.spec.laserColor e.spec.irisSize) ++
           (tagLayer Layer.pupil (Eyeball.drawPupil t e.centerX e.centerY
              (e.time + e.animationSpeed * e.spec.animationEnergy) e.spec.animationEnergy
              e.spec.hasLaser e.spec.pupilShape e.spec.pupilColor e.spec.laserColor
              e.spec.pupilSize) ++
            tagLayer Layer.highlights (Eyeball.drawHighlights t e.centerX e.centerY
              (e.time + e.animationSpeed * e.spec.animationEnergy) e.spec.animationEnergy
              e.spec.irisSize))))))),
    (if e.spec.hasLaser then
        tagLayer Layer.laser (Eyeball.drawLaser t e.centerX e.centerY
          (e.time + e.animationSpeed * e.spec.animationEnergy) e.spec.animationEnergy
          e.spec.laserColor)
      else []) ++
     ((if e.spec.hasParticles then
        tagLayer Layer.particles (Eyeball.drawParticles t e.centerX e.centerY
          (e.time + e.animationSpeed * e.spec.animationEnergy) e.spec.animationEnergy
          e.spec.socketSize e.spec.effectColor)
       else []) ++
      tagLayer Layer.lightning
        (if e.spec.hasLightning then
          Eyeball.drawLightning t e.centerX e.centerY e.spec.irisSize e.spec.socketSize
            (Eyeball.drawSclera t e.centerX e.centerY e.spec.scleraTexture
              e.spec.socketShape e.spec.scleraColor e.spec.socketSize e.rng).2
         else ([], (Eyeball.drawSclera t e.centerX e.centerY e.spec.scleraTexture
              e.spec.socketShape e.spec.scleraColor e.spec.socketSize e.rng).2)).1),
    ?_, ?_, ?_⟩
  · simp only [Eyeball.draw]
    simp [List.append_assoc]
  · intro x hx
    simp only [List.mem_append] at hx
    rcases hx with hx | hx | hx | hx | hx | hx | hx | hx
    · rw [tagLayer_fst hx]; rfl
    · split at hx
      · rw [tagLayer_fst hx]; rfl
      · simp at hx
    · split at hx
      · rw [tagLayer_fst hx]; rfl
      · simp at hx
    · rw [tagLayer_fst hx]; rfl
    · rw [tagLayer_fst hx]; rfl
    · rw [tagLayer_fst hx]; rfl
    · rw [tagLayer_fst hx]; rfl
    · rw [tagLayer_fst hx]; rfl
  · intro x hx
    simp only [List.mem_append] at hx
    rcases hx with hx | hx | hx
    · split at hx
      · rw [tagLayer_fst hx]; rfl
      · simp at hx
    · split at hx
      · rw [tagLayer_fst hx]; rfl
      · simp at hx
    · rw [tagLayer_fst hx]; rfl

/-- C5: in any frame, every laser, particles or lightning command comes
strictly after every command of every other layer. -/
theorem c5_effects_drawn_last (t : TrigOps) (e : Eyeball) (i j : ℕ)
    (li lj : Layer × DrawCmd)
    (hi : (Eyeball.draw t e).1.get? i = some li)
    (hj : (Eyeball.draw t e).1.get? j = some lj)
    (hPi : isEffectLayer li.1 = true) (hPj : isEffectLayer lj.1 = false) : j < i := by
  obtain ⟨base, eff, hsplit, hb, he⟩ := draw_decomp t e
  rw [hsplit] at hi hj
  exact effects_last_aux (fun x => isEffectLayer x.1) base eff hb he hi hj hPi hPj

/-- With a non-veined sclera texture, the sclera layer's commands do not
depend on the random-stream state. -/
lemma drawSclera_fst_rng_indep (t : TrigOps) (cx cy : ℚ) (tex shape : String)
    (col : Rgb) (size : ℚ) (h : tex ≠ "veined") (s1 s2 : ℕ) :
    (Eyeball.drawSclera t cx cy tex shape col size s1).1 =
      (Eyeball.drawSclera t cx cy tex shape col size s2).1 := by
  simp [Eyeball.drawSclera, h]

/-- With a non-veined sclera texture, the sclera layer leaves the
random-stream state untouched. -/
lemma drawSclera_snd_id (t : TrigOps) (cx cy : ℚ) (tex shape : String)
    (col : Rgb) (size : ℚ) (h : tex ≠ "veined") (s : ℕ) :
    (Eyeball.drawSclera t cx cy tex shape col size s).2 = s := by
  simp [Eyeball.drawSclera, h]

/-- C2 (amended): for instances whose sclera texture is not "veined" and
whose lightning flag is off, the frame's commands are a function of the
attribute record, the center coordinates, the animation speed and the
elapsed-time accumulator alone — in particular not of the random-stream
state. -/
theorem c2_render_function_of_spec_and_time (t : TrigOps) (e1 e2 : Eyeball)
    (hspec : e1.spec = e2.spec) (htime : e1.time = e2.time)
    (hcx : e1.centerX = e2.centerX) (hcy : e1.centerY = e2.centerY)
    (hspeed : e1.animationSpeed = e2.animationSpeed)
    (htex : e1.spec.scleraTexture ≠ "veined")
    (hlight : e1.spec.hasLightning = false) :
    (Eyeball.draw t e1).1 = (Eyeball.draw t e2).1 := by
  have htex2 : e2.spec.scleraTexture ≠ "veined" := hspec ▸ htex
  have hlight2 : e2.spec.hasLightning = false := hspec ▸ hlight
  simp only [Eyeball.draw]
  rw [hcx, hcy, hspec, htime, hspeed]
  rw [drawSclera_fst_rng_indep t e2.centerX e2.centerY e2.spec.scleraTexture
    e2.spec.socketShape e2.spec.scleraColor e2.spec.socketSize htex2 e1.rng e2.rng]
  simp [hlight2]

/-- Counterexample to C2 as stated: a veined-sclera instance rendered
twice with identical spec, surface and elapsed time (`eVeinedNext` is the
post-frame state with the time accumulator reset) produces different
command lists, because `drawVeins` re-samples the stream. -/
theorem c2_counterexample :
    eVeinedNext.spec = eVeined.spec ∧ eVeinedNext.time = eVeined.time ∧
    eVeinedNext.centerX = eVeined.centerX ∧ eVeinedNext.centerY = eVeined.centerY ∧
    eVeinedNext.animationSpeed = eVeined.animationSpeed ∧
    (Eyeball.draw trig0 eVeined).1 ≠ (Eyeball.draw trig0 eVeinedNext).1 :=
  ⟨rfl, rfl, rfl, rfl, rfl, fun h =>
    absurd (congrArg (fun l => l.get? 11) h) (by with_unfolding_all decide)⟩

/-- Witness for `c2_render_function_of_spec_and_time`: two smooth-sclera
instances differing only in stream state render the same frame. -/
theorem c2_render_function_witness :
    eSmoothA.spec = eSmoothB.spec ∧ eSmoothA.time = eSmoothB.time ∧
    eSmoothA.spec.scleraTexture ≠ "veined" ∧ eSmoothA.spec.hasLightning = false ∧
    eSmoothA.rng ≠ eSmoothB.rng ∧
    (Eyeball.draw trig0 eSmoothA).1 = (Eyeball.draw trig0 eSmoothB).1 :=
  ⟨rfl, rfl, by decide, rfl, by decide,
   c2_render_function_of_spec_and_time trig0 eSmoothA eSmoothB rfl rfl rfl rfl rfl
     (by decide) rfl⟩

/-- C4 (amended): rendering never mutates the attribute record, the
metadata, the animation speed or the geometry — only the time accumulator
and (through the veined and lightning layers) the stream state; when the
texture is not "veined" and lightning is off, the stream state is
untouched as well. -/
theorem c4_spec_immutable_amended (t : TrigOps) (e : Eyeball) :
    ((Eyeball.draw t e).2.spec = e.spec ∧
     (Eyeball.draw t e).2.metadata = e.metadata ∧
     (Eyeball.draw t e).2.animationSpeed = e.animationSpeed ∧
     (Eyeball.draw t e).2.seed = e.seed ∧
     (Eyeball.draw t e).2.w = e.w ∧ (Eyeball.draw t e).2.h = e.h ∧
     (Eyeball.draw t e).2.centerX = e.centerX ∧
     (Eyeball.draw t e).2.centerY = e.centerY ∧
     (Eyeball.draw t e).2.time = e.time + e.animationSpeed * e.spec.animationEnergy) ∧
    (e.spec.scleraTexture ≠ "veined" → e.spec.hasLightning = false →
      (Eyeball.draw t e).2.rng = e.rng) := by
  refine ⟨⟨rfl, rfl, rfl, rfl, rfl, rfl, rfl, rfl, rfl⟩, ?_⟩
  intro htex hlight
  simp only [Eyeball.draw]
  simp [hlight, drawSclera_snd_id t e.centerX e.centerY e.spec.scleraTexture
    e.spec.socketShape e.spec.scleraColor e.spec.socketSize htex e.rng]

set_option maxRecDepth 100000 in
/-- Counterexample to C4 as stated: a lightning-flagged instance's render
call re-samples (and so advances) the random stream. -/
theorem c4_counterexample :
    (Eyeball.draw trig0 eLightning).2.rng ≠ eLightning.rng := by
  with_unfolding_all decide

/-- Witness for `c4_spec_immutable_amended`: the smooth no-lightning
instance keeps its stream state across a frame. -/
theorem c4_spec_immutable_witness :
    eSmoothA.spec.scleraTexture ≠ "veined" ∧ eSmoothA.spec.hasLightning = false ∧
    (Eyeball.draw trig0 eSmoothA).2.rng = eSmoothA.rng :=
  ⟨by decide, rfl, (c4_spec_immutable_amended trig0 eSmoothA).2 (by decide) rfl⟩

set_option maxRecDepth 100000 in
/-- Witness for `c5_effects_drawn_last`: in the frame of a
particles-flagged instance, the first particles command (index 31) comes
after the background command (index 0). -/
theorem c5_effects_drawn_last_witness :
    (Eyeball.draw trig0 eParticles).1.get? 31 = some (Layer.particles, DrawCmd.push) ∧
    (Eyeball.draw trig0 eParticles).1.get? 0 =
      some (Layer.background, DrawCmd.background 10 10 15) ∧
    isEffectLayer Layer.particles = true ∧ isEffectLayer Layer.background = false ∧
    (0 : ℕ) < 31 :=
  ⟨by with_unfolding_all decide, by with_unfolding_all decide, rfl, rfl,
   c5_effects_drawn_last trig0 eParticles 31 0
     (Layer.particles, DrawCmd.push) (Layer.background, DrawCmd.background 10 10 15)
     (by with_unfolding_all decide) (by with_unfolding_all decide) rfl rfl⟩

/-- `runDepth` distributes over append through `Option.bind`. -/
lemma runDepth_append (a b : List DrawCmd) (d : ℕ) :
    runDepth (a ++ b) d = (runDepth a d).bind (runDepth b) := by
  induction a generalizing d with
  | nil => rfl
  | cons c a ih =>
    simp only [List.cons_append, runDepth]
    cases depthStep c d with
    | none => rfl
    | some d2 => simp [ih]

/-- Appending neutral lists is neutral. -/
lemma Neutral.append {a b : List DrawCmd} (ha : Neutral a) (hb : Neutral b) :
    Neutral (a ++ b) := by
  intro d
  rw [runDepth_append, ha d]
  exact hb d

/-- The empty command list is neutral. -/
lemma neutral_nil : Neutral ([] : List DrawCmd) := fun _ => rfl

/-- A command that is not `push`/`pop` leaves the depth unchanged. -/
lemma depthStep_of_not_pushpop {c : DrawCmd} (hc : isPushPop c = false) (d : ℕ) :
    depthStep c d = some d := by
  cases c <;> first | rfl | simp [isPushPop] at hc

/-- Prepending a non-stack command preserves neutrality. -/
lemma Neutral.cons {c : DrawCmd} (hc : isPushPop c = false) {l : List DrawCmd}
    (hl : Neutral l) : Neutral (c :: l) := by
  intro d
  simp only [runDepth, depthStep_of_not_pushpop hc, Option.bind]
  exact hl d

/-- A list free of stack commands is neutral. -/
lemma neutral_of_no_pushpop {l : List DrawCmd} (h : ∀ c ∈ l, isPushPop c = false) :
    Neutral l := by
  induction l with
  | nil => exact neutral_nil
  | cons c l ih =>
    exact Neutral.cons (h c (by simp)) (ih fun c hc => h c (by simp [hc]))

/-- A concatenation of neutral pieces is neutral. -/
lemma neutral_flatMap {α : Type} (L : List α) (f : α → List DrawCmd)
    (h : ∀ x ∈ L, Neutral (f x)) : Neutral (L.flatMap f) := by
  induction L with
  | nil => exact neutral_nil
  | cons x L ih =>
    simp only [List.flatMap_cons]
    exact Neutral.append (h x (by simp)) (ih fun y hy => h y (by simp [hy]))

/-- The stateful loop of neutral bodies is neutral. -/
lemma statedForAux_neutral (f : ℕ → ℕ → List DrawCmd × ℕ)
    (h : ∀ i s, Neutral (f i s).1) : ∀ (n i s : ℕ), Neutral (statedForAux f i n s).1 := by
  intro n
  induction n with
  | zero => intro i s; exact neutral_nil
  | succ n ih =>
    intro i s
    simp only [statedForAux]
    exact Neutral.append (h i s) (ih (i + 1) ((f i s).2))

/-- See `statedForAux_neutral`. -/
lemma statedFor_neutral (n : ℕ) (f : ℕ → ℕ → List DrawCmd × ℕ)
    (h : ∀ i s, Neutral (f i s).1) (s : ℕ) : Neutral (statedFor n f s).1 :=
  statedForAux_neutral f h n 0 s

/-- The glow layer is neutral. -/
lemma drawGlow_neutral (t : TrigOps) (cx cy size : ℚ) (c : Rgb) :
    Neutral (Eyeball.drawGlow t cx cy size c) := by
  intro d
  have h1 : Neutral ((countdown 10).flatMap (fun i =>
      [DrawCmd.fill c.r c.g c.b (mapQ (i : ℚ) 0 10 0 255),
       DrawCmd.ellipse 0 0 (size + (i : ℚ) * 20) (size + (i : ℚ) * 20)])) := by
    exact neutral_flatMap _ _ fun i _ => neutral_of_no_pushpop (by simp [isPushPop])
  have h2 : Neutral ((countdown 5).flatMap (fun i =>
      [DrawCmd.fill 255 255 255 (mapQ (i : ℚ) 0 5 0 255),
       DrawCmd.ellipse 0 0 (size + (i : ℚ) * 8) (size + (i : ℚ) * 8)])) := by
    exact neutral_flatMap _ _ fun i _ => neutral_of_no_pushpop (by simp [isPushPop])
  simp only [Eyeball.drawGlow]
  simp [runDepth_append, runDepth, depthStep, h1 _, h2 _]

/-- `runDepth` of a command list without stack commands is the identity. -/
lemma runDepth_of_no_pushpop {l : List DrawCmd} (h : ∀ c ∈ l, isPushPop c = false)
    (d : ℕ) : runDepth l d = some d := neutral_of_no_pushpop h d

/-- `runDepth` of a concatenation of depth-preserving pieces. -/
lemma runDepth_flatMap {α : Type} (L : List α) (f : α → List DrawCmd) (d : ℕ)
    (h : ∀ x, ∀ d2, runDepth (f x) d2 = some d2) :
    runDepth (L.flatMap f) d = some d :=
  neutral_flatMap L f (fun x _ => h x) d

/-- `runDepth` of a stateful loop of depth-preserving bodies. -/
lemma runDepth_statedFor (n : ℕ) (f : ℕ → ℕ → List DrawCmd × ℕ) (s d : ℕ)
    (h : ∀ i si, ∀ d2, runDepth (f i si).1 d2 = some d2) :
    runDepth (statedFor n f s).1 d = some d :=
  statedFor_neutral n f (fun i si => h i si) s d

/-- The star outline contains no stack commands. -/
lemma drawStar_neutral (t : TrigOps) (x y r1 r2 np : ℚ) :
    Neutral (Eyeball.drawStar t x y r1 r2 np) :=
  neutral_of_no_pushpop (by
    intro c hc
    simp [Eyeball.drawStar] at hc
    rcases hc with hc | ⟨a, _, hc | hc⟩ | hc <;> subst hc <;> rfl)

/-- The polygon outline contains no stack commands. -/
lemma drawPolygon_neutral (t : TrigOps) (x y r np : ℚ) :
    Neutral (Eyeball.drawPolygon t x y r np) :=
  neutral_of_no_pushpop (by
    intro c hc
    simp [Eyeball.drawPolygon] at hc
    rcases hc with hc | ⟨a, _, hc⟩ | hc <;> subst hc <;> rfl)

/-- The socket-shape dispatcher is depth-neutral for every shape. -/
lemma drawShape_neutral (t : TrigOps) (shape : String) (size : ℚ) :
    Neutral (Eyeball.drawShape t shape size) := by
  intro d
  unfold Eyeball.drawShape
  split
  · simp [runDepth, depthStep]
  · simp [runDepth, depthStep]
  · simp [runDepth, depthStep]
  · exact drawStar_neutral t 0 0 (size / 2) (size / 4) 6 d
  · exact drawPolygon_neutral t 0 0 (size / 2) 6 d
  · simp [runDepth, depthStep]
  · simp [runDepth, depthStep]

/-- Function-level form of `runDepth_append` for rewriting under binds. -/
lemma runDepth_append_fn (a b : List DrawCmd) :
    runDepth (a ++ b) = fun d => (runDepth a d).bind (runDepth b) :=
  funext (runDepth_append a b)

/-- Function-level neutrality of a concatenation of neutral pieces. -/
lemma runDepth_flatMap_fn {α : Type} (L : List α) (f : α → List DrawCmd)
    (h : ∀ x, ∀ d2, runDepth (f x) d2 = some d2) :
    runDepth (L.flatMap f) = fun d => some d :=
  funext fun d => neutral_flatMap L f (fun x _ => h x) d

/-- Function-level neutrality of a stateful loop of neutral bodies. -/
lemma runDepth_statedFor_fn (n : ℕ) (f : ℕ → ℕ → List DrawCmd × ℕ) (s : ℕ)
    (h : ∀ i si, ∀ d2, runDepth (f i si).1 d2 = some d2) :
    runDepth (statedFor n f s).1 = fun d => some d :=
  funext fun d => statedFor_neutral n f (fun i si => h i si) s d

/-- Function-level neutrality of a mapped list of non-stack commands. -/
lemma runDepth_map_fn {α : Type} (L : List α) (f : α → DrawCmd)
    (h : ∀ x, isPushPop (f x) = false) :
    runDepth (L.map f) = fun d => some d :=
  funext fun d => neutral_of_no_pushpop
    (fun c hc => by obtain ⟨a, _, rfl⟩ := List.mem_map.mp hc; exact h a) d

/-- `runDepth` of a conditional with depth-preserving branches. -/
lemma runDepth_ite_fn (c : Prop) [Decidable c] (A B : List DrawCmd)
    (hA : ∀ d, runDepth A d = some d) (hB : ∀ d, runDepth B d = some d) :
    runDepth (if c then A else B) = fun d => some d := by
  funext d
  split
  · exact hA d
  · exact hB d

/-- Bind of a `some` value, in the exact shape produced by `runDepth`. -/
lemma some_bind_q (v : ℕ) (f : ℕ → Option ℕ) : (some v).bind f = f v := rfl

/-- `runDepth_append_fn` stated on `List.append` directly, for goals where
simp has exposed the method form. -/
lemma runDepth_lappend_fn (a b : List DrawCmd) :
    runDepth (a.append b) = fun d => (runDepth a d).bind (runDepth b) :=
  runDepth_append_fn a b

/-- `isPushPop` is false on `vertex` commands (used for mapped paths). -/
lemma isPushPop_vertex (x y : ℚ) : isPushPop (DrawCmd.vertex x y) = false := rfl

/-- Untagging a tagged layer recovers its command list. -/
lemma tagLayer_map_snd (L : Layer) (cs : List DrawCmd) :
    (tagLayer L cs).map Prod.snd = cs := by
  simp [tagLayer]

/-- The aura layer is depth-neutral. -/
lemma drawAura_neutral (t : TrigOps) (cx cy time energy size : ℚ) (c : Rgb) :
    Neutral (Eyeball.drawAura t cx cy time energy size c) := by
  intro d
  simp only [Eyeball.drawAura, runDepth_append_fn]
  rw [runDepth_flatMap_fn]
  · simp only [runDepth, depthStep, some_bind_q]
  · intro x d2
    simp only [runDepth, depthStep, some_bind_q]

/-- The socket layer is depth-neutral. -/
lemma drawSocket_neutral (t : TrigOps) (cx cy : ℚ) (g : Bool) (shape : String)
    (c : Rgb) (size : ℚ) : Neutral (Eyeball.drawSocket t cx cy g shape c size) := by
  have hsh : ∀ (sz : ℚ) (d2 : ℕ), runDepth (Eyeball.drawShape t shape sz) d2 = some d2 :=
    fun sz d2 => drawShape_neutral t shape sz d2
  intro d
  simp only [Eyeball.drawSocket, runDepth_append_fn]
  rw [runDepth_ite_fn]
  · simp only [runDepth, depthStep, some_bind_q, hsh]
  · intro d2
    rw [runDepth_flatMap_fn]
    intro x d3
    simp only [runDepth, depthStep, some_bind_q, hsh]
  · intro d2
    rfl

/-- The vein overlay is depth-neutral. -/
lemma drawVeins_neutral (t : TrigOps) (s : ℕ) : Neutral (Eyeball.drawVeins t s).1 := by
  intro d
  simp only [Eyeball.drawVeins]
  simp only [runDepth_append_fn]
  rw [runDepth_statedFor_fn]
  · simp only [runDepth, depthStep, some_bind_q]
  · intro i si d2
    simp only [SeededRandom.range, SeededRandom.next, runDepth, depthStep, some_bind_q]

/-- The sclera layer is depth-neutral. -/
lemma drawSclera_neutral (t : TrigOps) (cx cy : ℚ) (tex shape : String) (c : Rgb)
    (size : ℚ) (s : ℕ) : Neutral (Eyeball.drawSclera t cx cy tex shape c size s).1 := by
  have hsh : ∀ (sz : ℚ) (d2 : ℕ), runDepth (Eyeball.drawShape t shape sz) d2 = some d2 :=
    fun sz d2 => drawShape_neutral t shape sz d2
  have hv : ∀ (s2 d2 : ℕ), runDepth (Eyeball.drawVeins t s2).1 d2 = some d2 :=
    fun s2 d2 => drawVeins_neutral t s2 d2
  intro d
  simp only [Eyeball.drawSclera]
  by_cases h2 : tex = "metallic"
  · rw [if_neg (show ¬tex = "veined" by
      intro h; rw [h] at h2; exact absurd h2 (by decide)), if_pos h2]
    simp only [runDepth_append_fn]
    rw [runDepth_flatMap_fn]
    · simp only [runDepth, depthStep, some_bind_q, List.nil_append]
    · intro x d2
      simp only [runDepth, depthStep, some_bind_q, hsh]
  · rw [if_neg h2]
    by_cases h1 : tex = "veined"
    · rw [if_pos h1]
      simp only [runDepth_append_fn]
      simp only [runDepth, depthStep, some_bind_q, hsh, hv]
    · rw [if_neg h1]
      simp only [runDepth_append_fn]
      simp only [runDepth, depthStep, some_bind_q, hsh, List.nil_append]

/-- The radial iris pattern is depth-neutral. -/
lemma drawRadialPattern_neutral (t : TrigOps) (c1 c2 : Rgb) (size : ℚ) :
    Neutral (Eyeball.drawRadialPattern t c1 c2 size) := by
  intro d
  simp only [Eyeball.drawRadialPattern]
  rw [runDepth_flatMap_fn]
  intro x d2
  simp only [runDepth, depthStep, some_bind_q]

/-- The spiral iris pattern is depth-neutral. -/
lemma drawSpiralPattern_neutral (t : TrigOps) (time energy : ℚ) (c1 c2 : Rgb)
    (size : ℚ) : Neutral (Eyeball.drawSpiralPattern t time energy c1 c2 size) := by
  intro d
  simp only [Eyeball.drawSpiralPattern, runDepth_append_fn]
  rw [runDepth_flatMap_fn]
  · simp only [runDepth, depthStep, some_bind_q]
  · intro x d2
    simp only [runDepth_append_fn, runDepth_lappend_fn, runDepth, depthStep,
      some_bind_q]
    rw [runDepth_map_fn]
    · rfl
    · intro a
      rfl

/-- The geometric iris pattern is depth-neutral. -/
lemma drawGeometricPattern_neutral (t : TrigOps) (time energy : ℚ) (c1 c2 : Rgb)
    (size : ℚ) : Neutral (Eyeball.drawGeometricPattern t time energy c1 c2 size) := by
  intro d
  simp only [Eyeball.drawGeometricPattern]
  rw [runDepth_flatMap_fn]
  intro ring d2
  rw [runDepth_flatMap_fn]
  intro i d3
  simp only [runDepth, depthStep, some_bind_q]

/-- The fractal pattern contains no stack commands. -/
lemma drawFractalLayer_no_pushpop :
    ∀ (n : ℕ) (t : TrigOps) (c1 c2 : Rgb) (size x y : ℚ) (depth : ℤ),
      depth.toNat = n →
      ∀ c ∈ Eyeball.drawFractalLayer t c1 c2 size x y depth, isPushPop c = false := by
  intro n
  induction n using Nat.strong_induction_on with
  | _ n ih =>
    intro t c1 c2 size x y depth hd
    rw [Eyeball.drawFractalLayer]
    split
    · simp
    · rename_i hcond
      push_neg at hcond
      have hdpos : 0 < depth := hcond.1
      have h1 : (depth - 1).toNat = n - 1 := by omega
      intro c hc
      simp only [List.mem_append, List.mem_cons, List.not_mem_nil, or_false] at hc
      rcases hc with ((((rfl | rfl) | hc) | hc) | hc) | hc
      · rfl
      · rfl
      · exact ih (n - 1) (by omega) t c1 c2 _ _ _ _ h1 c hc
      · exact ih (n - 1) (by omega) t c1 c2 _ _ _ _ h1 c hc
      · exact ih (n - 1) (by omega) t c1 c2 _ _ _ _ h1 c hc
      · exact ih (n - 1) (by omega) t c1 c2 _ _ _ _ h1 c hc

/-- The fractal iris pattern is depth-neutral. -/
lemma drawFractalPattern_neutral (t : TrigOps) (c1 c2 : Rgb) (size : ℚ) :
    Neutral (Eyeball.drawFractalPattern t c1 c2 size) :=
  neutral_of_no_pushpop
    (drawFractalLayer_no_pushpop (4 : ℤ).toNat t c1 c2 (size / 2) 0 0 4 rfl)

/-- The crystalline iris pattern is depth-neutral. -/
lemma drawCrystallinePattern_neutral (t : TrigOps) (c1 c2 : Rgb) (size : ℚ) :
    Neutral (Eyeball.drawCrystallinePattern t c1 c2 size) := by
  intro d
  simp only [Eyeball.drawCrystallinePattern, runDepth_append_fn]
  rw [runDepth_flatMap_fn]
  · simp only [runDepth, depthStep, some_bind_q]
  · intro x d2
    simp only [runDepth, depthStep, some_bind_q]

/-- The void iris pattern is depth-neutral. -/
lemma drawVoidPattern_neutral (t : TrigOps) (c1 : Rgb) (size : ℚ) :
    Neutral (Eyeball.drawVoidPattern t c1 size) := by
  intro d
  simp only [Eyeball.drawVoidPattern]
  rw [runDepth_flatMap_fn]
  intro x d2
  by_cases hx : x % 2 = 0 <;>
    simp only [hx, if_true, if_false, reduceIte, runDepth, depthStep, some_bind_q]

/-- The iris pattern dispatch is depth-neutral for every pattern string. -/
lemma irisDispatch_neutral (t : TrigOps) (time energy : ℚ) (pat shape : String)
    (c1 c2 : Rgb) (size : ℚ) :
    ∀ d, runDepth
      (if pat = "radial" then Eyeball.drawRadialPattern t c1 c2 size
       else if pat = "spiral" then Eyeball.drawSpiralPattern t time energy c1 c2 size
       else if pat = "geometric" then
         Eyeball.drawGeometricPattern t time energy c1 c2 size
       else if pat = "fractal" then Eyeball.drawFractalPattern t c1 c2 size
       else if pat = "crystalline" then Eyeball.drawCrystallinePattern t c1 c2 size
       else if pat = "void" then Eyeball.drawVoidPattern t c1 size
       else DrawCmd.fill c1.r c1.g c1.b 255 :: Eyeball.drawShape t shape size) d =
      some d := by
  intro d
  split
  · exact drawRadialPattern_neutral t c1 c2 size d
  split
  · exact drawSpiralPattern_neutral t time energy c1 c2 size d
  split
  · exact drawGeometricPattern_neutral t time energy c1 c2 size d
  split
  · exact drawFractalPattern_neutral t c1 c2 size d
  split
  · exact drawCrystallinePattern_neutral t c1 c2 size d
  split
  · exact drawVoidPattern_neutral t c1 size d
  simp only [runDepth, depthStep, some_bind_q, drawShape_neutral t shape size d]

/-- The laser-synchronised iris glow overlay is depth-neutral. -/
lemma irisOverlay_neutral (t : TrigOps) (lg : ℚ) (shape : String) (lc : Rgb)
    (size : ℚ) :
    ∀ d, runDepth
      (if lg > 0.1 then
        (countdown 6).flatMap (fun i =>
          DrawCmd.fill lc.r lc.g lc.b (lg * 30 * ((i : ℚ) / 6)) ::
            Eyeball.drawShape t shape (size + (i : ℚ) * 6))
        ++ (DrawCmd.fill 255 255 255 (lg * 40) :: Eyeball.drawShape t shape (size + 2))
        ++ (DrawCmd.fill lc.r lc.g lc.b (lg * 25) :: Eyeball.drawShape t shape size)
      else []) d = some d := by
  have hsh : ∀ (sz : ℚ) (d2 : ℕ), runDepth (Eyeball.drawShape t shape sz) d2 = some d2 :=
    fun sz d2 => drawShape_neutral t shape sz d2
  intro d
  split
  · simp only [runDepth_append_fn]
    rw [runDepth_flatMap_fn]
    · simp only [runDepth, depthStep, some_bind_q, hsh]
    · intro x d2
      simp only [runDepth, depthStep, some_bind_q, hsh]
  · rfl

/-- The iris layer is depth-neutral. -/
lemma drawIris_neutral (t : TrigOps) (cx cy time energy : ℚ) (hasLaser : Bool)
    (pat shape : String) (c1 c2 lc : Rgb) (size : ℚ) :
    Neutral (Eyeball.drawIris t cx cy time energy hasLaser pat shape c1 c2 lc size) := by
  intro d
  simp only [Eyeball.drawIris, runDepth_append_fn]
  simp only [runDepth, depthStep, some_bind_q,
    irisDispatch_neutral t time energy pat shape c1 c2 size,
    irisOverlay_neutral t (Eyeball.laserGlowOf t time energy hasLaser) shape lc size]

/-- The pupil body dispatch is depth-neutral for every pupil shape. -/
lemma pupilDispatch_neutral (t : TrigOps) (shape : String) (pc : Rgb) (size : ℚ) :
    ∀ d, runDepth
      (if shape = "multiple" then
        (List.range 3).flatMap (fun i =>
          [DrawCmd.push,
           DrawCmd.translate (t.cos ((t.twoPi / 3) * (i : ℚ)) * (size * 0.3))
             (t.sin ((t.twoPi / 3) * (i : ℚ)) * (size * 0.3)),
           DrawCmd.fill pc.r pc.g pc.b 255,
           DrawCmd.ellipse 0 0 (size * 0.5) (size * 0.5), DrawCmd.pop])
      else if shape = "slit" then
        [DrawCmd.fill pc.r pc.g pc.b 255, DrawCmd.ellipse 0 0 (size * 0.3) size]
      else if shape = "cross" then
        [DrawCmd.fill pc.r pc.g pc.b 255, DrawCmd.rect 0 0 (size * 0.3) size,
         DrawCmd.rect 0 0 size (size * 0.3)]
      else if shape = "void" then
        (countdown 10).flatMap (fun i =>
          [DrawCmd.fill 0 0 0 (mapQ (i : ℚ) 0 10 255 0),
           DrawCmd.ellipse 0 0 (mapQ (i : ℚ) 0 10 size 0) (mapQ (i : ℚ) 0 10 size 0)])
      else DrawCmd.fill pc.r pc.g pc.b 255 :: Eyeball.drawShape t shape size) d =
      some d := by
  intro d
  split
  · rw [runDepth_flatMap_fn]
    intro x d2
    simp only [runDepth, depthStep, some_bind_q]
  split
  · simp only [runDepth, depthStep, some_bind_q]
  split
  · simp only [runDepth, depthStep, some_bind_q]
  split
  · rw [runDepth_flatMap_fn]
    intro x d2
    simp only [runDepth, depthStep, some_bind_q]
  simp only [runDepth, depthStep, some_bind_q, drawShape_neutral t shape size d]

/-- The laser-synchronised pupil glow overlay is depth-neutral. -/
lemma pupilOverlay_neutral (t : TrigOps) (lg : ℚ) (shape : String) (lc : Rgb)
    (size : ℚ) :
    ∀ d, runDepth
      (if lg > 0.1 then
        (countdown 3).flatMap (fun i =>
          DrawCmd.fill lc.r lc.g lc.b (lg * 20 * ((i : ℚ) / 3)) ::
            Eyeball.drawShape t shape (size + (i : ℚ) * 3))
        ++ (DrawCmd.fill 255 255 255 (lg * 30) :: Eyeball.drawShape t shape (size + 1))
      else []) d = some d := by
  have hsh : ∀ (sz : ℚ) (d2 : ℕ), runDepth (Eyeball.drawShape t shape sz) d2 = some d2 :=
    fun sz d2 => drawShape_neutral t shape sz d2
  intro d
  split
  · simp only [runDepth_append_fn]
    rw [runDepth_flatMap_fn]
    · simp only [runDepth, depthStep, some_bind_q, hsh]
    · intro x d2
      simp only [runDepth, depthStep, some_bind_q, hsh]
  · rfl

/-- The pupil layer is depth-neutral. -/
lemma drawPupil_neutral (t : TrigOps) (cx cy time energy : ℚ) (hasLaser : Bool)
    (shape : String) (pc lc : Rgb) (size : ℚ) :
    Neutral (Eyeball.drawPupil t cx cy time energy hasLaser shape pc lc size) := by
  intro d
  simp only [Eyeball.drawPupil, runDepth_append_fn]
  simp only [runDepth, depthStep, some_bind_q,
    pupilDispatch_neutral t shape pc size,
    pupilOverlay_neutral t (Eyeball.laserGlowOf t time energy hasLaser) shape lc size]

/-- The highlights layer is depth-neutral. -/
lemma drawHighlights_neutral (t : TrigOps) (cx cy time energy size : ℚ) :
    Neutral (Eyeball.drawHighlights t cx cy time energy size) := by
  intro d
  simp only [Eyeball.drawHighlights, runDepth, depthStep, some_bind_q]

/-- The laser layer is depth-neutral on both its exit paths: the early
return below the materialization threshold pops before returning, and the
full beam path pops at the end. -/
lemma drawLaser_neutral (t : TrigOps) (cx cy time energy : ℚ) (lc : Rgb) :
    Neutral (Eyeball.drawLaser t cx cy time energy lc) := by
  intro d
  simp only [Eyeball.drawLaser]
  split
  · simp only [List.cons_append, List.nil_append, runDepth, depthStep, some_bind_q]
  · simp only [runDepth_append_fn]
    rw [runDepth_flatMap_fn]
    case h =>
      intro beam d2
      rw [runDepth_flatMap_fn]
      intro layer d3
      simp only [runDepth_append_fn]
      rw [runDepth_map_fn]
      · simp only [runDepth, depthStep, some_bind_q]
      · intro pt
        rfl
    rw [runDepth_ite_fn]
    case hA =>
      intro d2
      rw [runDepth_flatMap_fn]
      intro i d3
      simp only [runDepth, depthStep, some_bind_q]
    case hB =>
      intro d2
      rfl
    rw [runDepth_ite_fn]
    case hA =>
      intro d2
      rw [runDepth_flatMap_fn]
      intro i d3
      simp only [runDepth, depthStep, some_bind_q]
    case hB =>
      intro d2
      rfl
    simp only [runDepth, depthStep, some_bind_q]

/-- The particles layer is depth-neutral. -/
lemma drawParticles_neutral (t : TrigOps) (cx cy time energy size : ℚ) (c : Rgb) :
    Neutral (Eyeball.drawParticles t cx cy time energy size c) := by
  intro d
  simp only [Eyeball.drawParticles, runDepth_append_fn]
  rw [runDepth_flatMap_fn]
  · simp only [runDepth, depthStep, some_bind_q]
  · intro x d2
    simp only [runDepth, depthStep, some_bind_q]

/-- One lightning pass is depth-neutral. -/
lemma lightningPass_neutral (t : TrigOps) (sa sr er : ℚ) (col : Rgb) (w : ℚ)
    (s : ℕ) : ∀ d, runDepth (Eyeball.lightningPass t sa sr er col w s).1 d = some d := by
  intro d
  simp only [Eyeball.lightningPass, runDepth_append_fn]
  rw [runDepth_statedFor_fn]
  · simp only [runDepth, depthStep, some_bind_q]
  · intro i si d2
    simp only [SeededRandom.range, SeededRandom.next, runDepth, depthStep, some_bind_q]

/-- The lightning layer is depth-neutral. -/
lemma drawLightning_neutral (t : TrigOps) (cx cy irisSize socketSize : ℚ) (s : ℕ) :
    Neutral (Eyeball.drawLightning t cx cy irisSize socketSize s).1 := by
  intro d
  simp only [Eyeball.drawLightning, SeededRandom.range, SeededRandom.next,
    runDepth_append_fn]
  rw [runDepth_statedFor_fn]
  · simp only [runDepth, depthStep, some_bind_q]
  · intro i si d2
    simp only [SeededRandom.range, SeededRandom.next, runDepth_append_fn, some_bind_q,
      lightningPass_neutral]

/-- Untagging a conditionally emitted tagged layer. -/
lemma map_snd_ite_tag (c : Prop) [Decidable c] (L : Layer) (cs : List DrawCmd) :
    ((if c then tagLayer L cs else []).map Prod.snd) = if c then cs else [] := by
  split <;> simp [tagLayer_map_snd]

/-- First projection of a conditional pair. -/
lemma fst_ite_pair (c : Prop) [Decidable c] (X Y : List DrawCmd × ℕ) :
    (if c then X else Y).1 = if c then X.1 else Y.1 := by
  split <;> rfl

/-- C8: every frame leaves the saved-state stack balanced - running the
frame's commands from depth 0 ends at depth 0 with no underflow; and the
laser routine (with its early return) and the shared shape dispatcher are
depth-neutral from any depth. -/
theorem c8_pushpop_balanced :
    (∀ (t : TrigOps) (e : Eyeball),
      runDepth ((Eyeball.draw t e).1.map Prod.snd) 0 = some 0) ∧
    (∀ (t : TrigOps) (cx cy time energy : ℚ) (lc : Rgb),
      Neutral (Eyeball.drawLaser t cx cy time energy lc)) ∧
    (∀ (t : TrigOps) (shape : String) (size : ℚ),
      Neutral (Eyeball.drawShape t shape size)) := by
  refine ⟨?_, drawLaser_neutral, drawShape_neutral⟩
  intro t e
  simp only [Eyeball.draw, List.map_append, map_snd_ite_tag, tagLayer_map_snd,
    fst_ite_pair]
  simp only [runDepth_append_fn]
  rw [runDepth_ite_fn]
  case hA =>
    intro d2
    exact drawGlow_neutral t e.centerX e.centerY e.spec.socketSize e.spec.effectColor d2
  case hB =>
    intro d2
    rfl
  rw [runDepth_ite_fn]
  case hA =>
    intro d2
    exact drawAura_neutral t e.centerX e.centerY
      (e.time + e.animationSpeed * e.spec.animationEnergy) e.spec.animationEnergy
      e.spec.socketSize e.spec.auraColor d2
  case hB =>
    intro d2
    rfl
  rw [runDepth_ite_fn]
  case hA =>
    intro d2
    exact drawLaser_neutral t e.centerX e.centerY
      (e.time + e.animationSpeed * e.spec.animationEnergy) e.spec.animationEnergy
      e.spec.laserColor d2
  case hB =>
    intro d2
    rfl
  rw [runDepth_ite_fn]
  case hA =>
    intro d2
    exact drawParticles_neutral t e.centerX e.centerY
      (e.time + e.animationSpeed * e.spec.animationEnergy) e.spec.animationEnergy
      e.spec.socketSize e.spec.effectColor d2
  case hB =>
    intro d2
    rfl
  rw [runDepth_ite_fn]
  case hA =>
    intro d2
    exact drawLightning_neutral t e.centerX e.centerY e.spec.irisSize
      e.spec.socketSize _ d2
  case hB =>
    intro d2
    rfl
  have hsoc : runDepth (Eyeball.drawSocket t e.centerX e.centerY e.spec.hasGlow
      e.spec.socketShape e.spec.socketColor e.spec.socketSize) = fun d2 => some d2 :=
    funext (drawSocket_neutral t e.centerX e.centerY e.spec.hasGlow
      e.spec.socketShape e.spec.socketColor e.spec.socketSize)
  have hscl : runDepth (Eyeball.drawSclera t e.centerX e.centerY e.spec.scleraTexture
      e.spec.socketShape e.spec.scleraColor e.spec.socketSize e.rng).1 =
      fun d2 => some d2 :=
    funext (drawSclera_neutral t e.centerX e.centerY e.spec.scleraTexture
      e.spec.socketShape e.spec.scleraColor e.spec.socketSize e.rng)
  have hiris : runDepth (Eyeball.drawIris t e.centerX e.centerY
      (e.time + e.animationSpeed * e.spec.animationEnergy) e.spec.animationEnergy
      e.spec.hasLaser e.spec.irisPattern e.spec.irisShape e.spec.irisColor1
      e.spec.irisColor2 e.spec.laserColor e.spec.irisSize) = fun d2 => some d2 :=
    funext (drawIris_neutral t e.centerX e.centerY
      (e.time + e.animationSpeed * e.spec.animationEnergy) e.spec.animationEnergy
      e.spec.hasLaser e.spec.irisPattern e.spec.irisShape e.spec.irisColor1
      e.spec.irisColor2 e.spec.laserColor e.spec.irisSize)
  have hpup : runDepth (Eyeball.drawPupil t e.centerX e.centerY
      (e.time + e.animationSpeed * e.spec.animationEnergy) e.spec.animationEnergy
      e.spec.hasLaser e.spec.pupilShape e.spec.pupilColor e.spec.laserColor
      e.spec.pupilSize) = fun d2 => some d2 :=
    funext (drawPupil_neutral t e.centerX e.centerY
      (e.time + e.animationSpeed * e.spec.animationEnergy) e.spec.animationEnergy
      e.spec.hasLaser e.spec.pupilShape e.spec.pupilColor e.spec.laserColor
      e.spec.pupilSize)
  have hhl : runDepth (Eyeball.drawHighlights t e.centerX e.centerY
      (e.time + e.animationSpeed * e.spec.animationEnergy) e.spec.animationEnergy
      e.spec.irisSize) = fun d2 => some d2 :=
    funext (drawHighlights_neutral t e.centerX e.centerY
      (e.time + e.animationSpeed * e.spec.animationEnergy) e.spec.animationEnergy
      e.spec.irisSize)
  simp only [hsoc, hscl, hiris, hpup, hhl]
  simp only [runDepth, depthStep, some_bind_q]
